import Mathlib

/-!
Verification development for the Radix Engine Toolkit's value model and
transaction analysis code. The Rust sources are shallowly embedded: pure
functions become Lean functions, fallible functions return `Except`, and
external collaborators (the SBOR byte codec, bech32 coder, FromStr parsers)
are abstracted behind explicit parameters or treated at the level of the
wire value they produce/consume.
-/

namespace RET

/-! ## Opaque payload types of external origin

These wrap the external scrypto payload types (`Decimal`, `Hash`, keys,
signatures, ...). The toolkit code only copies these payloads around, so an
opaque representation with decidable equality is a faithful embedding. -/

/-- External scrypto fixed-precision decimal; payload opaque to the toolkit. -/
structure Decimal where
  raw : Int
deriving DecidableEq, Repr

/-- External scrypto high-precision decimal; payload opaque to the toolkit. -/
structure PreciseDecimal where
  raw : Int
deriving DecidableEq, Repr

/-- External scrypto 32-byte hash; payload opaque to the toolkit. -/
structure Hash where
  raw : Nat
deriving DecidableEq, Repr

/-- External ECDSA secp256k1 public key (33 bytes); opaque payload. -/
structure EcdsaSecp256k1PublicKey where
  raw : Nat
deriving DecidableEq, Repr

/-- External ECDSA secp256k1 signature (65 bytes); opaque payload. -/
structure EcdsaSecp256k1Signature where
  raw : Nat
deriving DecidableEq, Repr

/-- External EdDSA Ed25519 public key (32 bytes); opaque payload. -/
structure EddsaEd25519PublicKey where
  raw : Nat
deriving DecidableEq, Repr

/-- External EdDSA Ed25519 signature (64 bytes); opaque payload. -/
structure EddsaEd25519Signature where
  raw : Nat
deriving DecidableEq, Repr

/-- External scrypto non-fungible local id; opaque payload. -/
structure NonFungibleLocalId where
  raw : Nat
deriving DecidableEq, Repr

/-- External `ManifestBlobRef` (a 32-byte blob hash); opaque payload. -/
structure ManifestBlobRef where
  raw : Nat
deriving DecidableEq, Repr

/-- External `Own` node reference; opaque payload. -/
structure Own where
  raw : Nat
deriving DecidableEq, Repr

/-- External `ManifestExpression` (scrypto runtime). -/
inductive ManifestExpression where
  | EntireWorktop
  | EntireAuthZone
deriving DecidableEq, Repr

/-- External scrypto `ComponentAddress`: an enum over the entity type of the
component, each variant carrying the raw address bytes (opaque here). -/
inductive ComponentAddress where
  | Normal (raw : Nat)
  | Account (raw : Nat)
  | Identity (raw : Nat)
  | Clock (raw : Nat)
  | EpochManager (raw : Nat)
  | Validator (raw : Nat)
  | AccessController (raw : Nat)
  | EcdsaSecp256k1VirtualAccount (raw : Nat)
  | EddsaEd25519VirtualAccount (raw : Nat)
  | EcdsaSecp256k1VirtualIdentity (raw : Nat)
  | EddsaEd25519VirtualIdentity (raw : Nat)
deriving DecidableEq, Repr

/-- External scrypto `ResourceAddress`; raw bytes opaque to the toolkit. -/
structure ResourceAddress where
  raw : Nat
deriving DecidableEq, Repr

/-- External scrypto `PackageAddress`; raw bytes opaque to the toolkit. -/
structure PackageAddress where
  raw : Nat
deriving DecidableEq, Repr

/-- `NetworkAwareComponentAddress`: raw component address plus network id. -/
structure NetworkAwareComponentAddress where
  network_id : Nat
  address : ComponentAddress
deriving DecidableEq, Repr

/-- `NetworkAwareResourceAddress`: raw resource address plus network id. -/
structure NetworkAwareResourceAddress where
  network_id : Nat
  address : ResourceAddress
deriving DecidableEq, Repr

/-- `NetworkAwarePackageAddress`: raw package address plus network id. -/
structure NetworkAwarePackageAddress where
  network_id : Nat
  address : PackageAddress
deriving DecidableEq, Repr

/-- `NonFungibleGlobalId` from `model/address/non_fungible_global_id.rs`:
a network-aware resource address plus a non-fungible local id. -/
structure NonFungibleGlobalId where
  resource_address : NetworkAwareResourceAddress
  non_fungible_local_id : NonFungibleLocalId
deriving DecidableEq, Repr

/-- `TransientIdentifier`: bucket/proof identifiers are either strings or
u32 values. `BucketId`/`ProofId` are newtype wrappers over this in the
source; the wrapper layer is elided here. -/
inductive TransientIdentifier where
  | String (value : String)
  | U32 (value : Nat)
deriving DecidableEq, Repr

/-- `EnumDiscriminator` from `enum_discriminator.rs`: either a named
discriminator or a resolved u8 one. -/
inductive EnumDiscriminator where
  | String (discriminator : String)
  | U8 (discriminator : Nat)
deriving DecidableEq, Repr

/-! ## ValueKind and Value (model/value.rs) -/

/-- `ValueKind` from `model/value.rs`: the closed enumeration of `Value`
tags. -/
inductive ValueKind where
  | Bool
  | U8 | U16 | U32 | U64 | U128
  | I8 | I16 | I32 | I64 | I128
  | String
  | Enum
  | Some | None | Ok | Err
  | Map | Array | Tuple
  | Decimal | PreciseDecimal
  | Own
  | ComponentAddress | ResourceAddress | PackageAddress
  | Hash
  | EcdsaSecp256k1PublicKey | EcdsaSecp256k1Signature
  | EddsaEd25519PublicKey | EddsaEd25519Signature
  | Bucket | Proof
  | NonFungibleLocalId | NonFungibleGlobalId
  | Expression | Blob | Bytes
deriving DecidableEq, Repr

/-- `Value` from `model/value.rs`: the canonical tagged-union value model.
Integer payloads are modelled as `Nat`/`Int` (the toolkit only copies them;
no arithmetic occurs). `Bytes` holds a byte list. -/
inductive Value where
  | Bool (value : Bool)
  | U8 (value : Nat)
  | U16 (value : Nat)
  | U32 (value : Nat)
  | U64 (value : Nat)
  | U128 (value : Nat)
  | I8 (value : Int)
  | I16 (value : Int)
  | I32 (value : Int)
  | I64 (value : Int)
  | I128 (value : Int)
  | String (value : String)
  | Enum (variant : EnumDiscriminator) (fields : Option (List Value))
  | Some (value : Value)
  | None
  | Ok (value : Value)
  | Err (value : Value)
  | Array (element_kind : ValueKind) (elements : List Value)
  | Map (key_value_kind : ValueKind) (value_value_kind : ValueKind)
      (entries : List (Value × Value))
  | Tuple (elements : List Value)
  | Decimal (value : Decimal)
  | PreciseDecimal (value : PreciseDecimal)
  | Own (value : Own)
  | ComponentAddress (address : NetworkAwareComponentAddress)
  | ResourceAddress (address : NetworkAwareResourceAddress)
  | PackageAddress (address : NetworkAwarePackageAddress)
  | Hash (value : Hash)
  | EcdsaSecp256k1PublicKey (public_key : EcdsaSecp256k1PublicKey)
  | EcdsaSecp256k1Signature (signature : EcdsaSecp256k1Signature)
  | EddsaEd25519PublicKey (public_key : EddsaEd25519PublicKey)
  | EddsaEd25519Signature (signature : EddsaEd25519Signature)
  | Bucket (identifier : TransientIdentifier)
  | Proof (identifier : TransientIdentifier)
  | NonFungibleLocalId (value : NonFungibleLocalId)
  | NonFungibleGlobalId (address : NonFungibleGlobalId)
  | Expression (value : ManifestExpression)
  | Blob (hash : ManifestBlobRef)
  | Bytes (value : List Nat)

/-- `Value::kind` from `model/value.rs` lines 414-469: maps each variant to
its `ValueKind`, inspecting only the tag. -/
def Value.kind : Value → ValueKind
  | .Bool _ => .Bool
  | .I8 _ => .I8
  | .I16 _ => .I16
  | .I32 _ => .I32
  | .I64 _ => .I64
  | .I128 _ => .I128
  | .U8 _ => .U8
  | .U16 _ => .U16
  | .U32 _ => .U32
  | .U64 _ => .U64
  | .U128 _ => .U128
  | .String _ => .String
  | .Enum _ _ => .Enum
  | .Some _ => .Some
  | .None => .None
  | .Ok _ => .Ok
  | .Err _ => .Err
  | .Map _ _ _ => .Map
  | .Array _ _ => .Array
  | .Tuple _ => .Tuple
  | .Decimal _ => .Decimal
  | .PreciseDecimal _ => .PreciseDecimal
  | .PackageAddress _ => .PackageAddress
  | .ComponentAddress _ => .ComponentAddress
  | .ResourceAddress _ => .ResourceAddress
  | .Hash _ => .Hash
  | .Bucket _ => .Bucket
  | .Proof _ => .Proof
  | .NonFungibleLocalId _ => .NonFungibleLocalId
  | .NonFungibleGlobalId _ => .NonFungibleGlobalId
  | .EcdsaSecp256k1PublicKey _ => .EcdsaSecp256k1PublicKey
  | .EcdsaSecp256k1Signature _ => .EcdsaSecp256k1Signature
  | .EddsaEd25519PublicKey _ => .EddsaEd25519PublicKey
  | .EddsaEd25519Signature _ => .EddsaEd25519Signature
  | .Blob _ => .Blob
  | .Expression _ => .Expression
  | .Bytes _ => .Bytes
  | .Own _ => .Own

/-- The variant tag of a `Value`, as a bare index. Used to state that
`Value.kind` depends only on the variant tag, not on any payload. -/
def Value.ctorIdx : Value → Nat
  | .Bool _ => 0
  | .U8 _ => 1
  | .U16 _ => 2
  | .U32 _ => 3
  | .U64 _ => 4
  | .U128 _ => 5
  | .I8 _ => 6
  | .I16 _ => 7
  | .I32 _ => 8
  | .I64 _ => 9
  | .I128 _ => 10
  | .String _ => 11
  | .Enum _ _ => 12
  | .Some _ => 13
  | .None => 14
  | .Ok _ => 15
  | .Err _ => 16
  | .Array _ _ => 17
  | .Map _ _ _ => 18
  | .Tuple _ => 19
  | .Decimal _ => 20
  | .PreciseDecimal _ => 21
  | .Own _ => 22
  | .ComponentAddress _ => 23
  | .ResourceAddress _ => 24
  | .PackageAddress _ => 25
  | .Hash _ => 26
  | .EcdsaSecp256k1PublicKey _ => 27
  | .EcdsaSecp256k1Signature _ => 28
  | .EddsaEd25519PublicKey _ => 29
  | .EddsaEd25519Signature _ => 30
  | .Bucket _ => 31
  | .Proof _ => 32
  | .NonFungibleLocalId _ => 33
  | .NonFungibleGlobalId _ => 34
  | .Expression _ => 35
  | .Blob _ => 36
  | .Bytes _ => 37

/-! ## The Scrypto wire value model (external `ScryptoValue`)

The external binary codec encodes/decodes `ScryptoValue`s; the toolkit's
`encode`/`decode` compose it with `to_scrypto_value`/`from_scrypto_value`.
The codec itself is out of scope, so wire form is modelled at the
`ScryptoValue` level. -/

/-- External `ScryptoCustomValueKind`. -/
inductive ScryptoCustomValueKind where
  | PackageAddress | ComponentAddress | ResourceAddress
  | Bucket | Proof
  | Expression | Blob
  | Hash
  | EcdsaSecp256k1PublicKey | EcdsaSecp256k1Signature
  | EddsaEd25519PublicKey | EddsaEd25519Signature
  | Decimal | PreciseDecimal
  | NonFungibleLocalId | Own
deriving DecidableEq, Repr

/-- External `ScryptoValueKind`. -/
inductive ScryptoValueKind where
  | Bool
  | U8 | U16 | U32 | U64 | U128
  | I8 | I16 | I32 | I64 | I128
  | String
  | Enum | Map | Array | Tuple
  | Custom (custom_value_kind : ScryptoCustomValueKind)
deriving DecidableEq, Repr

/-- External `ScryptoCustomValue`: the custom payloads of the wire value
model. `Bucket`/`Proof` carry a bare u32 on the wire. -/
inductive ScryptoCustomValue where
  | Decimal (value : Decimal)
  | PreciseDecimal (value : PreciseDecimal)
  | ComponentAddress (address : ComponentAddress)
  | ResourceAddress (address : ResourceAddress)
  | PackageAddress (address : PackageAddress)
  | Hash (value : Hash)
  | EcdsaSecp256k1PublicKey (value : EcdsaSecp256k1PublicKey)
  | EcdsaSecp256k1Signature (value : EcdsaSecp256k1Signature)
  | EddsaEd25519PublicKey (value : EddsaEd25519PublicKey)
  | EddsaEd25519Signature (value : EddsaEd25519Signature)
  | Bucket (identifier : Nat)
  | Proof (identifier : Nat)
  | Expression (value : ManifestExpression)
  | Blob (value : ManifestBlobRef)
  | NonFungibleLocalId (value : NonFungibleLocalId)
  | Own (value : Own)
deriving DecidableEq, Repr

/-- External `ScryptoValue`: the wire-form value produced/consumed by the
binary codec. Enum discriminators on the wire are bare u8s. -/
inductive ScryptoValue where
  | Bool (value : Bool)
  | U8 (value : Nat)
  | U16 (value : Nat)
  | U32 (value : Nat)
  | U64 (value : Nat)
  | U128 (value : Nat)
  | I8 (value : Int)
  | I16 (value : Int)
  | I32 (value : Int)
  | I64 (value : Int)
  | I128 (value : Int)
  | String (value : String)
  | Enum (discriminator : Nat) (fields : List ScryptoValue)
  | Map (key_value_kind : ScryptoValueKind) (value_value_kind : ScryptoValueKind)
      (entries : List (ScryptoValue × ScryptoValue))
  | Array (element_value_kind : ScryptoValueKind) (elements : List ScryptoValue)
  | Tuple (fields : List ScryptoValue)
  | Custom (value : ScryptoCustomValue)

/-! ## Kind conversions (model/value.rs lines 1328-1454) -/

/-- `impl From<ScryptoValueKind> for ValueKind`, lines 1328-1381. -/
def ScryptoValueKind.toValueKind : ScryptoValueKind → ValueKind
  | .Bool => .Bool
  | .U8 => .U8
  | .U16 => .U16
  | .U32 => .U32
  | .U64 => .U64
  | .U128 => .U128
  | .I8 => .I8
  | .I16 => .I16
  | .I32 => .I32
  | .I64 => .I64
  | .I128 => .I128
  | .String => .String
  | .Enum => .Enum
  | .Map => .Map
  | .Array => .Array
  | .Tuple => .Tuple
  | .Custom c =>
    match c with
    | .PackageAddress => .PackageAddress
    | .ComponentAddress => .ComponentAddress
    | .ResourceAddress => .ResourceAddress
    | .Bucket => .Bucket
    | .Proof => .Proof
    | .Expression => .Expression
    | .Blob => .Blob
    | .Hash => .Hash
    | .EcdsaSecp256k1PublicKey => .EcdsaSecp256k1PublicKey
    | .EcdsaSecp256k1Signature => .EcdsaSecp256k1Signature
    | .EddsaEd25519PublicKey => .EddsaEd25519PublicKey
    | .EddsaEd25519Signature => .EddsaEd25519Signature
    | .Decimal => .Decimal
    | .PreciseDecimal => .PreciseDecimal
    | .NonFungibleLocalId => .NonFungibleLocalId
    | .Own => .Own

/-- `impl From<ValueKind> for ScryptoValueKind`, lines 1383-1454. Note the
deliberate collapses: `Some`/`None`/`Ok`/`Err` map to `Enum`, `Bytes` maps
to `Array`, `NonFungibleGlobalId` maps to `Tuple`. -/
def ValueKind.toScryptoValueKind : ValueKind → ScryptoValueKind
  | .Bool => .Bool
  | .U8 => .U8
  | .U16 => .U16
  | .U32 => .U32
  | .U64 => .U64
  | .U128 => .U128
  | .I8 => .I8
  | .I16 => .I16
  | .I32 => .I32
  | .I64 => .I64
  | .I128 => .I128
  | .String => .String
  | .Enum => .Enum
  | .Some => .Enum
  | .None => .Enum
  | .Ok => .Enum
  | .Err => .Enum
  | .Map => .Map
  | .Array => .Array
  | .Bytes => .Array
  | .Tuple => .Tuple
  | .PackageAddress => .Custom .PackageAddress
  | .ResourceAddress => .Custom .ResourceAddress
  | .ComponentAddress => .Custom .ComponentAddress
  | .Proof => .Custom .Proof
  | .Bucket => .Custom .Bucket
  | .Expression => .Custom .Expression
  | .Blob => .Custom .Blob
  | .NonFungibleGlobalId => .Tuple
  | .Hash => .Custom .Hash
  | .EcdsaSecp256k1PublicKey => .Custom .EcdsaSecp256k1PublicKey
  | .EcdsaSecp256k1Signature => .Custom .EcdsaSecp256k1Signature
  | .EddsaEd25519PublicKey => .Custom .EddsaEd25519PublicKey
  | .EddsaEd25519Signature => .Custom .EddsaEd25519Signature
  | .Decimal => .Custom .Decimal
  | .PreciseDecimal => .Custom .PreciseDecimal
  | .NonFungibleLocalId => .Custom .NonFungibleLocalId
  | .Own => .Custom .Own

/-! ## Errors -/

/-- A parse failure of one of the external `FromStr`/hex collaborators
invoked by `from_ast_value`. Its contents are opaque to the toolkit. -/
structure ParseErr where
  message : String
deriving DecidableEq, Repr

/-- The toolkit `Error` type, restricted to the variants the embedded
functions can produce. -/
inductive Error where
  | UnexpectedAstContents (parsing : ValueKind) (expected : List ValueKind)
      (found : ValueKind)
  | InvalidExpressionString (found : String) (excepted : List String)
  | UnrecognizedEnumDiscriminator (discriminator : String)
  | OddNumberOfElements
  | InvalidTransientIdentifier
  | NetworkMismatchError (found : Nat) (expected : Nat)
  | TransactionNotCommitted
  | Infallible (message : String)
  | ParseError (cause : ParseErr)
  | ReceiptDecodeError (message : String)
  | OwnNotImplemented
deriving DecidableEq, Repr

/-- The external `KNOWN_ENUM_DISCRIMINATORS` table of the transaction
manifest compiler: well-known names for the `Option`/`Result` wire
discriminators (`None` = 0, `Some` = 1, `Ok` = 0, `Err` = 1). -/
def KNOWN_ENUM_DISCRIMINATORS : String → Option Nat
  | "Option::None" => some 0
  | "Option::Some" => some 1
  | "Result::Ok" => some 0
  | "Result::Err" => some 1
  | _ => none

/-- `EnumDiscriminator::resolve_discriminator` from `enum_discriminator.rs`:
a u8 discriminator resolves to itself; a named one is looked up in
`KNOWN_ENUM_DISCRIMINATORS`. -/
def EnumDiscriminator.resolve_discriminator : EnumDiscriminator → Except Error Nat
  | .U8 discriminator => .ok discriminator
  | .String discriminator =>
    match KNOWN_ENUM_DISCRIMINATORS discriminator with
    | some resolved => .ok resolved
    | none => .error (.UnrecognizedEnumDiscriminator discriminator)

/-- The `impl TryFrom<&BucketId/&ProofId> for ScryptoCustomValue` used by
`to_scrypto_value` (its body lives in `engine_identifier.rs`, outside the
provided sources). Modelled from the spec: only u32 transient identifiers
have a wire form (`ScryptoCustomValue::Bucket/Proof` carries a bare u32, as
`from_scrypto_value` lines 1156-1171 show); string identifiers cannot be
wire-encoded and fail. -/
def TransientIdentifier.toScryptoU32 : TransientIdentifier → Except Error Nat
  | .U32 value => .ok value
  | .String _ => .error .InvalidTransientIdentifier

mutual

/-- `Value::to_scrypto_value` from `model/value.rs` lines 889-1052. -/
def Value.to_scrypto_value : Value → Except Error ScryptoValue
  | .Bool value => .ok (.Bool value)
  | .U8 value => .ok (.U8 value)
  | .U16 value => .ok (.U16 value)
  | .U32 value => .ok (.U32 value)
  | .U64 value => .ok (.U64 value)
  | .U128 value => .ok (.U128 value)
  | .I8 value => .ok (.I8 value)
  | .I16 value => .ok (.I16 value)
  | .I32 value => .ok (.I32 value)
  | .I64 value => .ok (.I64 value)
  | .I128 value => .ok (.I128 value)
  | .String value => .ok (.String value)
  | .Enum variant fields => do
    let discriminator ← variant.resolve_discriminator
    let fields ←
      match fields with
      | none => pure []
      | some fields => Value.listToScryptoValue fields
    .ok (.Enum discriminator fields)
  | .Some value => do
    let field ← value.to_scrypto_value
    .ok (.Enum 1 [field])
  | .None => .ok (.Enum 0 [])
  | .Ok value => do
    let field ← value.to_scrypto_value
    .ok (.Enum 0 [field])
  | .Err value => do
    let field ← value.to_scrypto_value
    .ok (.Enum 1 [field])
  | .Map key_value_kind value_value_kind entries => do
    let scrypto_entries ← Value.entriesToScryptoValue entries
    .ok (.Map key_value_kind.toScryptoValueKind value_value_kind.toScryptoValueKind
      scrypto_entries)
  | .Array element_kind elements => do
    let scrypto_elements ← Value.listToScryptoValue elements
    .ok (.Array element_kind.toScryptoValueKind scrypto_elements)
  | .Tuple elements => do
    let fields ← Value.listToScryptoValue elements
    .ok (.Tuple fields)
  | .Decimal value => .ok (.Custom (.Decimal value))
  | .PreciseDecimal value => .ok (.Custom (.PreciseDecimal value))
  | .ComponentAddress address => .ok (.Custom (.ComponentAddress address.address))
  | .PackageAddress address => .ok (.Custom (.PackageAddress address.address))
  | .ResourceAddress address => .ok (.Custom (.ResourceAddress address.address))
  | .Hash value => .ok (.Custom (.Hash value))
  | .EcdsaSecp256k1PublicKey public_key => .ok (.Custom (.EcdsaSecp256k1PublicKey public_key))
  | .EddsaEd25519PublicKey public_key => .ok (.Custom (.EddsaEd25519PublicKey public_key))
  | .EcdsaSecp256k1Signature signature => .ok (.Custom (.EcdsaSecp256k1Signature signature))
  | .EddsaEd25519Signature signature => .ok (.Custom (.EddsaEd25519Signature signature))
  | .Bucket identifier => do
    let id ← identifier.toScryptoU32
    .ok (.Custom (.Bucket id))
  | .Proof identifier => do
    let id ← identifier.toScryptoU32
    .ok (.Custom (.Proof id))
  | .NonFungibleLocalId value => .ok (.Custom (.NonFungibleLocalId value))
  | .NonFungibleGlobalId address =>
    -- The source routes the two components through the `ResourceAddress` and
    -- `NonFungibleLocalId` arms of this same function; those arms are
    -- non-recursive and always succeed, so their results are inlined here.
    .ok (.Tuple [.Custom (.ResourceAddress address.resource_address.address),
      .Custom (.NonFungibleLocalId address.non_fungible_local_id)])
  | .Blob hash => .ok (.Custom (.Blob hash))
  | .Expression value => .ok (.Custom (.Expression value))
  | .Bytes value => .ok (.Array .U8 (value.map (fun b => ScryptoValue.U8 b)))
  | .Own value => .ok (.Custom (.Own value))
termination_by v => sizeOf v

/-- Elementwise `to_scrypto_value` over a list, short-circuiting on the
first error (the `collect::<Result<Vec<_>>>` idiom of the source). -/
def Value.listToScryptoValue : List Value → Except Error (List ScryptoValue)
  | [] => .ok []
  | v :: rest => do
    let v' ← v.to_scrypto_value
    let rest' ← Value.listToScryptoValue rest
    .ok (v' :: rest')
termination_by vs => sizeOf vs

/-- Entrywise `to_scrypto_value` over map entries, short-circuiting on the
first error (the entry loop of `to_scrypto_value`'s `Map` arm). -/
def Value.entriesToScryptoValue :
    List (Value × Value) → Except Error (List (ScryptoValue × ScryptoValue))
  | [] => .ok []
  | (key, value) :: rest => do
    let key' ← key.to_scrypto_value
    let value' ← value.to_scrypto_value
    let rest' ← Value.entriesToScryptoValue rest
    .ok ((key', value') :: rest')
termination_by es => sizeOf es

end

mutual

/-- `Value::from_scrypto_value` from `model/value.rs` lines 1054-1219: the
total wire-to-model conversion; `network_id` is reattached to every
address-bearing variant. -/
def Value.from_scrypto_value (scrypto_value : ScryptoValue) (network_id : Nat) : Value :=
  match scrypto_value with
  | .Bool value => .Bool value
  | .U8 value => .U8 value
  | .U16 value => .U16 value
  | .U32 value => .U32 value
  | .U64 value => .U64 value
  | .U128 value => .U128 value
  | .I8 value => .I8 value
  | .I16 value => .I16 value
  | .I32 value => .I32 value
  | .I64 value => .I64 value
  | .I128 value => .I128 value
  | .String value => .String value
  | .Enum discriminator fields =>
    .Enum (.U8 discriminator)
      (if fields.isEmpty then none
       else some (Value.listFromScryptoValue fields network_id))
  | .Map key_value_kind value_value_kind entries =>
    .Map key_value_kind.toValueKind value_value_kind.toValueKind
      (Value.entriesFromScryptoValue entries network_id)
  | .Array element_value_kind elements =>
    .Array element_value_kind.toValueKind
      (Value.listFromScryptoValue elements network_id)
  | .Tuple fields => .Tuple (Value.listFromScryptoValue fields network_id)
  | .Custom (.PackageAddress address) =>
    .PackageAddress { network_id := network_id, address := address }
  | .Custom (.ResourceAddress address) =>
    .ResourceAddress { network_id := network_id, address := address }
  | .Custom (.ComponentAddress address) =>
    .ComponentAddress { network_id := network_id, address := address }
  | .Custom (.Bucket identifier) => .Bucket (.U32 identifier)
  | .Custom (.Proof identifier) => .Proof (.U32 identifier)
  | .Custom (.Expression value) => .Expression value
  | .Custom (.Blob value) => .Blob value
  | .Custom (.Hash value) => .Hash value
  | .Custom (.EcdsaSecp256k1PublicKey value) => .EcdsaSecp256k1PublicKey value
  | .Custom (.EddsaEd25519PublicKey value) => .EddsaEd25519PublicKey value
  | .Custom (.EcdsaSecp256k1Signature value) => .EcdsaSecp256k1Signature value
  | .Custom (.EddsaEd25519Signature value) => .EddsaEd25519Signature value
  | .Custom (.Decimal value) => .Decimal value
  | .Custom (.PreciseDecimal value) => .PreciseDecimal value
  | .Custom (.NonFungibleLocalId value) => .NonFungibleLocalId value
  | .Custom (.Own value) => .Own value

/-- Elementwise `from_scrypto_value` over a list of wire values. -/
def Value.listFromScryptoValue (values : List ScryptoValue) (network_id : Nat) :
    List Value :=
  match values with
  | [] => []
  | v :: rest =>
    Value.from_scrypto_value v network_id :: Value.listFromScryptoValue rest network_id

/-- Entrywise `from_scrypto_value` over wire map entries. -/
def Value.entriesFromScryptoValue (entries : List (ScryptoValue × ScryptoValue))
    (network_id : Nat) : List (Value × Value) :=
  match entries with
  | [] => []
  | (key, value) :: rest =>
    (Value.from_scrypto_value key network_id, Value.from_scrypto_value value network_id)
      :: Value.entriesFromScryptoValue rest network_id

end

/-- `Value::encode` from `model/value.rs` lines 398-405, at the wire-value
level: the conversion to `ScryptoValue` that is handed to the external
binary codec (`scrypto_encode`, out of scope). -/
def Value.encode (v : Value) : Except Error ScryptoValue :=
  v.to_scrypto_value

/-- `Value::decode` from `model/value.rs` lines 407-412, at the wire-value
level: given the wire value the external codec recovered (`scrypto_decode`,
out of scope), reattach the network id via `from_scrypto_value`. -/
def Value.decode (scrypto_value : ScryptoValue) (network_id : Nat) : Except Error Value :=
  .ok (Value.from_scrypto_value scrypto_value network_id)

/-! ## The wire-stable fragment of the value model

`from_scrypto_value` canonicalizes on the way back from the wire: it never
produces `Some`/`None`/`Ok`/`Err` (only generic `Enum`s), never `Bytes`
(only `Array U8`), never `NonFungibleGlobalId` (only `Tuple`), resolves all
enum discriminators to `U8` form, turns empty enum field lists into absent
ones, and stamps every address with the supplied network id. The predicate
below carves out exactly the values that survive the round trip. -/

mutual

/-- Whether a value round-trips through the wire form unchanged when the
given network id is supplied on decode. -/
def wireStable (network_id : Nat) : Value → Bool
  | .Bool _ => true
  | .U8 _ => true
  | .U16 _ => true
  | .U32 _ => true
  | .U64 _ => true
  | .U128 _ => true
  | .I8 _ => true
  | .I16 _ => true
  | .I32 _ => true
  | .I64 _ => true
  | .I128 _ => true
  | .String _ => true
  | .Enum (.String _) _ => false
  | .Enum (.U8 _) none => true
  | .Enum (.U8 _) (some fields) =>
    !fields.isEmpty && listWireStable network_id fields
  | .Some _ => false
  | .None => false
  | .Ok _ => false
  | .Err _ => false
  | .Array element_kind elements =>
    decide (element_kind.toScryptoValueKind.toValueKind = element_kind) &&
    listWireStable network_id elements
  | .Map key_value_kind value_value_kind entries =>
    decide (key_value_kind.toScryptoValueKind.toValueKind = key_value_kind) &&
    decide (value_value_kind.toScryptoValueKind.toValueKind = value_value_kind) &&
    entriesWireStable network_id entries
  | .Tuple elements => listWireStable network_id elements
  | .Decimal _ => true
  | .PreciseDecimal _ => true
  | .Own _ => true
  | .ComponentAddress address => decide (address.network_id = network_id)
  | .ResourceAddress address => decide (address.network_id = network_id)
  | .PackageAddress address => decide (address.network_id = network_id)
  | .Hash _ => true
  | .EcdsaSecp256k1PublicKey _ => true
  | .EcdsaSecp256k1Signature _ => true
  | .EddsaEd25519PublicKey _ => true
  | .EddsaEd25519Signature _ => true
  | .Bucket (.U32 _) => true
  | .Bucket (.String _) => false
  | .Proof (.U32 _) => true
  | .Proof (.String _) => false
  | .NonFungibleLocalId _ => true
  | .NonFungibleGlobalId _ => false
  | .Expression _ => true
  | .Blob _ => true
  | .Bytes _ => false
termination_by v => sizeOf v

/-- Elementwise `wireStable` over a list. -/
def listWireStable (network_id : Nat) : List Value → Bool
  | [] => true
  | v :: rest => wireStable network_id v && listWireStable network_id rest
termination_by vs => sizeOf vs

/-- Entrywise `wireStable` over map entries. -/
def entriesWireStable (network_id : Nat) : List (Value × Value) → Bool
  | [] => true
  | (key, value) :: rest =>
    wireStable network_id key && wireStable network_id value &&
    entriesWireStable network_id rest
termination_by es => sizeOf es

end

mutual

/-- On the wire-stable fragment, `to_scrypto_value` succeeds and
`from_scrypto_value` recovers the original value. -/
theorem wireStable_round_trip (network_id : Nat) :
    ∀ v : Value, wireStable network_id v = true →
    ∃ sv, v.to_scrypto_value = .ok sv ∧
      Value.from_scrypto_value sv network_id = v := by
  intro v h
  match v with
  | .Bool b =>
    exact ⟨.Bool b, by simp [Value.to_scrypto_value], by simp [Value.from_scrypto_value]⟩
  | .U8 x =>
    exact ⟨.U8 x, by simp [Value.to_scrypto_value], by simp [Value.from_scrypto_value]⟩
  | .U16 x =>
    exact ⟨.U16 x, by simp [Value.to_scrypto_value], by simp [Value.from_scrypto_value]⟩
  | .U32 x =>
    exact ⟨.U32 x, by simp [Value.to_scrypto_value], by simp [Value.from_scrypto_value]⟩
  | .U64 x =>
    exact ⟨.U64 x, by simp [Value.to_scrypto_value], by simp [Value.from_scrypto_value]⟩
  | .U128 x =>
    exact ⟨.U128 x, by simp [Value.to_scrypto_value], by simp [Value.from_scrypto_value]⟩
  | .I8 x =>
    exact ⟨.I8 x, by simp [Value.to_scrypto_value], by simp [Value.from_scrypto_value]⟩
  | .I16 x =>
    exact ⟨.I16 x, by simp [Value.to_scrypto_value], by simp [Value.from_scrypto_value]⟩
  | .I32 x =>
    exact ⟨.I32 x, by simp [Value.to_scrypto_value], by simp [Value.from_scrypto_value]⟩
  | .I64 x =>
    exact ⟨.I64 x, by simp [Value.to_scrypto_value], by simp [Value.from_scrypto_value]⟩
  | .I128 x =>
    exact ⟨.I128 x, by simp [Value.to_scrypto_value], by simp [Value.from_scrypto_value]⟩
  | .String s =>
    exact ⟨.String s, by simp [Value.to_scrypto_value], by simp [Value.from_scrypto_value]⟩
  | .Enum (.String d) fields => simp [wireStable] at h
  | .Enum (.U8 d) none =>
    refine ⟨.Enum d [], ?_, ?_⟩
    · simp [Value.to_scrypto_value, EnumDiscriminator.resolve_discriminator]
      rfl
    · simp [Value.from_scrypto_value]
  | .Enum (.U8 d) (some fields) =>
    simp only [wireStable, Bool.and_eq_true, Bool.not_eq_true'] at h
    obtain ⟨hne, hfs⟩ := h
    obtain ⟨svs, hto, hfrom, hlen⟩ :=
      listWireStable_round_trip network_id fields hfs
    refine ⟨.Enum d svs, ?_, ?_⟩
    · simp [Value.to_scrypto_value, EnumDiscriminator.resolve_discriminator, hto]
      rfl
    · have hsvs : svs.isEmpty = false := by
        cases svs with
        | nil =>
          cases fields with
          | nil => simp at hne
          | cons a as => simp at hlen
        | cons a as => rfl
      simp [Value.from_scrypto_value, hsvs, hfrom]
  | .Some _ => simp [wireStable] at h
  | .None => simp [wireStable] at h
  | .Ok _ => simp [wireStable] at h
  | .Err _ => simp [wireStable] at h
  | .Array element_kind elements =>
    simp only [wireStable, Bool.and_eq_true, decide_eq_true_eq] at h
    obtain ⟨hk, hes⟩ := h
    obtain ⟨svs, hto, hfrom, _⟩ := listWireStable_round_trip network_id elements hes
    refine ⟨.Array element_kind.toScryptoValueKind svs, ?_, ?_⟩
    · simp [Value.to_scrypto_value, hto]
      rfl
    · simp [Value.from_scrypto_value, hk, hfrom]
  | .Map key_value_kind value_value_kind entries =>
    simp only [wireStable, Bool.and_eq_true, decide_eq_true_eq] at h
    obtain ⟨⟨hk, hv⟩, hes⟩ := h
    obtain ⟨svs, hto, hfrom⟩ := entriesWireStable_round_trip network_id entries hes
    refine ⟨.Map key_value_kind.toScryptoValueKind value_value_kind.toScryptoValueKind svs,
      ?_, ?_⟩
    · simp [Value.to_scrypto_value, hto]
      rfl
    · simp [Value.from_scrypto_value, hk, hv, hfrom]
  | .Tuple elements =>
    simp only [wireStable] at h
    obtain ⟨svs, hto, hfrom, _⟩ := listWireStable_round_trip network_id elements h
    refine ⟨.Tuple svs, ?_, ?_⟩
    · simp [Value.to_scrypto_value, hto]
      rfl
    · simp [Value.from_scrypto_value, hfrom]
  | .Decimal x =>
    exact ⟨.Custom (.Decimal x), by simp [Value.to_scrypto_value],
      by simp [Value.from_scrypto_value]⟩
  | .PreciseDecimal x =>
    exact ⟨.Custom (.PreciseDecimal x), by simp [Value.to_scrypto_value],
      by simp [Value.from_scrypto_value]⟩
  | .Own x =>
    exact ⟨.Custom (.Own x), by simp [Value.to_scrypto_value],
      by simp [Value.from_scrypto_value]⟩
  | .Hash x =>
    exact ⟨.Custom (.Hash x), by simp [Value.to_scrypto_value],
      by simp [Value.from_scrypto_value]⟩
  | .EcdsaSecp256k1PublicKey x =>
    exact ⟨.Custom (.EcdsaSecp256k1PublicKey x), by simp [Value.to_scrypto_value],
      by simp [Value.from_scrypto_value]⟩
  | .EcdsaSecp256k1Signature x =>
    exact ⟨.Custom (.EcdsaSecp256k1Signature x), by simp [Value.to_scrypto_value],
      by simp [Value.from_scrypto_value]⟩
  | .EddsaEd25519PublicKey x =>
    exact ⟨.Custom (.EddsaEd25519PublicKey x), by simp [Value.to_scrypto_value],
      by simp [Value.from_scrypto_value]⟩
  | .EddsaEd25519Signature x =>
    exact ⟨.Custom (.EddsaEd25519Signature x), by simp [Value.to_scrypto_value],
      by simp [Value.from_scrypto_value]⟩
  | .NonFungibleLocalId x =>
    exact ⟨.Custom (.NonFungibleLocalId x), by simp [Value.to_scrypto_value],
      by simp [Value.from_scrypto_value]⟩
  | .Expression x =>
    exact ⟨.Custom (.Expression x), by simp [Value.to_scrypto_value],
      by simp [Value.from_scrypto_value]⟩
  | .Blob x =>
    exact ⟨.Custom (.Blob x), by simp [Value.to_scrypto_value],
      by simp [Value.from_scrypto_value]⟩
  | .ComponentAddress address =>
    obtain ⟨nid, addr⟩ := address
    simp only [wireStable, decide_eq_true_eq] at h
    exact ⟨.Custom (.ComponentAddress addr), by simp [Value.to_scrypto_value],
      by simp [Value.from_scrypto_value, h]⟩
  | .ResourceAddress address =>
    obtain ⟨nid, addr⟩ := address
    simp only [wireStable, decide_eq_true_eq] at h
    exact ⟨.Custom (.ResourceAddress addr), by simp [Value.to_scrypto_value],
      by simp [Value.from_scrypto_value, h]⟩
  | .PackageAddress address =>
    obtain ⟨nid, addr⟩ := address
    simp only [wireStable, decide_eq_true_eq] at h
    exact ⟨.Custom (.PackageAddress addr), by simp [Value.to_scrypto_value],
      by simp [Value.from_scrypto_value, h]⟩
  | .Bucket (.String _) => simp [wireStable] at h
  | .Bucket (.U32 x) =>
    refine ⟨.Custom (.Bucket x), ?_, by simp [Value.from_scrypto_value]⟩
    simp [Value.to_scrypto_value, TransientIdentifier.toScryptoU32]
    rfl
  | .Proof (.String _) => simp [wireStable] at h
  | .Proof (.U32 x) =>
    refine ⟨.Custom (.Proof x), ?_, by simp [Value.from_scrypto_value]⟩
    simp [Value.to_scrypto_value, TransientIdentifier.toScryptoU32]
    rfl
  | .NonFungibleGlobalId _ => simp [wireStable] at h
  | .Bytes _ => simp [wireStable] at h
termination_by v => sizeOf v

/-- List version of `wireStable_round_trip`, tracking lengths so that the
`Enum` empty-fields check transfers across the wire. -/
theorem listWireStable_round_trip (network_id : Nat) :
    ∀ vs : List Value, listWireStable network_id vs = true →
    ∃ svs, Value.listToScryptoValue vs = .ok svs ∧
      Value.listFromScryptoValue svs network_id = vs ∧
      svs.length = vs.length := by
  intro vs h
  match vs with
  | [] => exact ⟨[], by simp [Value.listToScryptoValue], by simp [Value.listFromScryptoValue], rfl⟩
  | v :: rest =>
    simp only [listWireStable, Bool.and_eq_true] at h
    obtain ⟨hv, hrest⟩ := h
    obtain ⟨sv, hto, hfrom⟩ := wireStable_round_trip network_id v hv
    obtain ⟨svs, htos, hfroms, hlen⟩ := listWireStable_round_trip network_id rest hrest
    refine ⟨sv :: svs, ?_, ?_, ?_⟩
    · simp [Value.listToScryptoValue, hto, htos]
      rfl
    · simp [Value.listFromScryptoValue, hfrom, hfroms]
    · simp [hlen]
termination_by vs => sizeOf vs

/-- Entries version of `wireStable_round_trip`. -/
theorem entriesWireStable_round_trip (network_id : Nat) :
    ∀ es : List (Value × Value), entriesWireStable network_id es = true →
    ∃ svs, Value.entriesToScryptoValue es = .ok svs ∧
      Value.entriesFromScryptoValue svs network_id = es := by
  intro es h
  match es with
  | [] =>
    exact ⟨[], by simp [Value.entriesToScryptoValue], by simp [Value.entriesFromScryptoValue]⟩
  | (key, value) :: rest =>
    simp only [entriesWireStable, Bool.and_eq_true] at h
    obtain ⟨⟨hkey, hvalue⟩, hrest⟩ := h
    obtain ⟨sk, hkto, hkfrom⟩ := wireStable_round_trip network_id key hkey
    obtain ⟨sval, hvto, hvfrom⟩ := wireStable_round_trip network_id value hvalue
    obtain ⟨svs, htos, hfroms⟩ := entriesWireStable_round_trip network_id rest hrest
    refine ⟨(sk, sval) :: svs, ?_, ?_⟩
    · simp [Value.entriesToScryptoValue, hkto, hvto, htos]
      rfl
    · simp [Value.entriesFromScryptoValue, hkfrom, hvfrom, hfroms]
termination_by es => sizeOf es

end

/-! ## C1: the encode/decode round-trip law -/

/-- C1 counterexample: the claim says every valid `Value` without address
payloads satisfies `decode(encode(v), n) = Ok(v)`. It fails at
`Value::Bytes([0])`, which carries no address payload: `encode` lowers it
to the wire value `Array(U8, [U8 0])` (the same wire value as
`Value::Array(U8, [U8 0])`, so no byte codec can undo the collapse), and
`decode` returns the distinct value `Value::Array(U8, [U8 0])`. -/
theorem bytes_round_trip_counterexample :
    Value.encode (Value.Bytes [0]) = .ok (ScryptoValue.Array .U8 [.U8 0]) ∧
    Value.encode (Value.Array .U8 [.U8 0]) = .ok (ScryptoValue.Array .U8 [.U8 0]) ∧
    Value.decode (ScryptoValue.Array .U8 [.U8 0]) 1 = .ok (Value.Array .U8 [.U8 0]) ∧
    Value.Array .U8 [.U8 0] ≠ Value.Bytes [0] := by
  refine ⟨?_, ?_, ?_, ?_⟩
  · simp [Value.encode, Value.to_scrypto_value]
  · simp [Value.encode, Value.to_scrypto_value, Value.listToScryptoValue,
      ValueKind.toScryptoValueKind]
    rfl
  · simp [Value.decode, Value.from_scrypto_value, Value.listFromScryptoValue,
      ScryptoValueKind.toValueKind]
  · intro hcontra
    exact Value.noConfusion hcontra

/-- C1 (amended): `decode(encode(v), n) = Ok(v)` holds exactly on the
wire-stable fragment: values containing no `Some`/`None`/`Ok`/`Err`, no
`Bytes`, no `NonFungibleGlobalId`, no named enum discriminators or
explicitly-empty enum field lists, no string-identified buckets/proofs,
container kinds fixed by the wire collapse, and all addresses stamped with
the supplied network id `n`. -/
theorem decode_encode_round_trip (network_id : Nat) (v : Value)
    (h : wireStable network_id v = true) :
    (Value.encode v).bind (fun sv => Value.decode sv network_id) = .ok v := by
  obtain ⟨sv, hto, hfrom⟩ := wireStable_round_trip network_id v h
  simp only [Value.encode, Value.decode, hto]
  show Except.ok (Value.from_scrypto_value sv network_id) = Except.ok v
  rw [hfrom]

/-- Witness for C1's amended theorem at a concrete wire-stable value that
contains an address stamped with the supplied network id. -/
theorem decode_encode_round_trip_witness :
    wireStable 1 (Value.Tuple [Value.U8 5,
      Value.ComponentAddress ⟨1, .Account 7⟩, Value.Enum (.U8 2) none]) = true ∧
    (Value.encode (Value.Tuple [Value.U8 5,
        Value.ComponentAddress ⟨1, .Account 7⟩, Value.Enum (.U8 2) none])).bind
      (fun sv => Value.decode sv 1) =
      .ok (Value.Tuple [Value.U8 5,
        Value.ComponentAddress ⟨1, .Account 7⟩, Value.Enum (.U8 2) none]) := by
  have hs : wireStable 1 (Value.Tuple [Value.U8 5,
      Value.ComponentAddress ⟨1, .Account 7⟩, Value.Enum (.U8 2) none]) = true := by
    simp [wireStable, listWireStable]
  exact ⟨hs, decode_encode_round_trip 1 _ hs⟩

/-! ## C3: reserved enum discriminators on decode -/

/-- C3 counterexample: the claim says the wire-to-model conversion
special-cases the well-known discriminator indices, producing
`Value::Some`/`None`/`Ok`/`Err`. In fact `Value::Some(Bool(true))` encodes
to the wire enum with reserved discriminator 1, and `from_scrypto_value`
maps that wire enum to a generic `Value::Enum`, not back to `Value::Some`
(lines 1075-1093 have no special case). -/
theorem reserved_discriminator_decodes_to_generic_enum :
    Value.encode (Value.Some (Value.Bool true)) = .ok (ScryptoValue.Enum 1 [.Bool true]) ∧
    Value.from_scrypto_value (ScryptoValue.Enum 1 [.Bool true]) 1 =
      Value.Enum (.U8 1) (some [Value.Bool true]) ∧
    Value.Enum (.U8 1) (some [Value.Bool true]) ≠ Value.Some (Value.Bool true) := by
  refine ⟨?_, ?_, ?_⟩
  · simp [Value.encode, Value.to_scrypto_value]
    rfl
  · simp [Value.from_scrypto_value, Value.listFromScryptoValue]
  · intro hcontra
    exact Value.noConfusion hcontra

/-- C3 (amended): `from_scrypto_value` maps every wire enum — whatever its
discriminator, reserved or not — to a generic `Value::Enum` carrying a `U8`
discriminator; the model-to-wire collapse of `Some`/`None`/`Ok`/`Err` into
`Enum` is not inverted on decode. -/
theorem from_scrypto_value_enum_always_generic
    (discriminator : Nat) (fields : List ScryptoValue) (network_id : Nat) :
    (Value.from_scrypto_value (ScryptoValue.Enum discriminator fields) network_id).kind =
      ValueKind.Enum ∧
    (Value.from_scrypto_value (ScryptoValue.Enum discriminator fields) network_id).ctorIdx =
      (Value.Enum (.U8 discriminator) none).ctorIdx := by
  constructor
  · simp [Value.from_scrypto_value, Value.kind]
  · simp [Value.from_scrypto_value, Value.ctorIdx]

/-! ## C4: heterogeneous containers are not rejected by encoding -/

/-- C4 evidence: constructing an `Array` with declared element kind `U8`
containing a `String` element, and a `Map` with declared key/value kinds
`U8`/`U8` containing a `String` key, then encoding both: `to_scrypto_value`
succeeds on both (silently emitting the mismatched wire containers) instead
of failing with `HeterogeneousContainer` as the claim — and the `Array`
field's own doc comment ("will be validated to ensure that it contains a
single element kind") — require. -/
theorem heterogeneous_container_encodes_successfully :
    Value.to_scrypto_value (Value.Array .U8 [Value.String "x"]) =
      .ok (ScryptoValue.Array .U8 [ScryptoValue.String "x"]) ∧
    (Value.String "x").kind ≠ ValueKind.U8 ∧
    Value.to_scrypto_value (Value.Map .U8 .U8 [(Value.String "k", Value.Bool true)]) =
      .ok (ScryptoValue.Map .U8 .U8 [(ScryptoValue.String "k", ScryptoValue.Bool true)]) ∧
    (Value.String "k").kind ≠ ValueKind.U8 := by
  refine ⟨?_, ?_, ?_, ?_⟩
  · simp [Value.to_scrypto_value, Value.listToScryptoValue, ValueKind.toScryptoValueKind]
    rfl
  · simp [Value.kind]
  · simp [Value.to_scrypto_value, Value.entriesToScryptoValue, ValueKind.toScryptoValueKind]
    rfl
  · simp [Value.kind]

/-! ## C7: kind is a pure function of the variant tag -/

/-- The `ValueKind` determined by a bare variant tag index. -/
def kindOfCtorIdx : Nat → ValueKind
  | 0 => .Bool
  | 1 => .U8
  | 2 => .U16
  | 3 => .U32
  | 4 => .U64
  | 5 => .U128
  | 6 => .I8
  | 7 => .I16
  | 8 => .I32
  | 9 => .I64
  | 10 => .I128
  | 11 => .String
  | 12 => .Enum
  | 13 => .Some
  | 14 => .None
  | 15 => .Ok
  | 16 => .Err
  | 17 => .Array
  | 18 => .Map
  | 19 => .Tuple
  | 20 => .Decimal
  | 21 => .PreciseDecimal
  | 22 => .Own
  | 23 => .ComponentAddress
  | 24 => .ResourceAddress
  | 25 => .PackageAddress
  | 26 => .Hash
  | 27 => .EcdsaSecp256k1PublicKey
  | 28 => .EcdsaSecp256k1Signature
  | 29 => .EddsaEd25519PublicKey
  | 30 => .EddsaEd25519Signature
  | 31 => .Bucket
  | 32 => .Proof
  | 33 => .NonFungibleLocalId
  | 34 => .NonFungibleGlobalId
  | 35 => .Expression
  | 36 => .Blob
  | _ => .Bytes

/-- `Value.kind` factors through the variant tag. -/
theorem kind_eq_kindOfCtorIdx (v : Value) : v.kind = kindOfCtorIdx v.ctorIdx := by
  cases v <;> rfl

/-- C7: `kind()` is total (it is a function), deterministic across repeated
calls, and depends only on the variant tag: any two values with the same
variant tag have the same kind, whatever their payloads. -/
theorem kind_depends_only_on_variant_tag (v w : Value)
    (h : v.ctorIdx = w.ctorIdx) : v.kind = w.kind ∧ v.kind = v.kind := by
  refine ⟨?_, rfl⟩
  rw [kind_eq_kindOfCtorIdx, kind_eq_kindOfCtorIdx, h]

/-- Witness for C7 at two values of the same variant with different
payloads. -/
theorem kind_depends_only_on_variant_tag_witness :
    (Value.U8 0).ctorIdx = (Value.U8 200).ctorIdx ∧
    (Value.U8 0).kind = (Value.U8 200).kind :=
  ⟨rfl, (kind_depends_only_on_variant_tag (Value.U8 0) (Value.U8 200) rfl).1⟩

/-! ## C10: totality of from_scrypto_value and network id stamping -/

mutual

/-- All network ids carried by address payloads anywhere inside a value
(package, resource and component addresses, including the resource address
inside a `NonFungibleGlobalId`). -/
def addressNetworkIds : Value → List Nat
  | .ComponentAddress address => [address.network_id]
  | .ResourceAddress address => [address.network_id]
  | .PackageAddress address => [address.network_id]
  | .NonFungibleGlobalId address => [address.resource_address.network_id]
  | .Enum _ none => []
  | .Enum _ (some fields) => listAddressNetworkIds fields
  | .Some value => addressNetworkIds value
  | .Ok value => addressNetworkIds value
  | .Err value => addressNetworkIds value
  | .Array _ elements => listAddressNetworkIds elements
  | .Map _ _ entries => entriesAddressNetworkIds entries
  | .Tuple elements => listAddressNetworkIds elements
  | _ => []
termination_by v => sizeOf v

/-- List version of `addressNetworkIds`. -/
def listAddressNetworkIds : List Value → List Nat
  | [] => []
  | v :: rest => addressNetworkIds v ++ listAddressNetworkIds rest
termination_by vs => sizeOf vs

/-- Entries version of `addressNetworkIds`. -/
def entriesAddressNetworkIds : List (Value × Value) → List Nat
  | [] => []
  | (key, value) :: rest =>
    addressNetworkIds key ++ addressNetworkIds value ++ entriesAddressNetworkIds rest
termination_by es => sizeOf es

end

mutual

/-- Every address produced by `from_scrypto_value` carries the supplied
network id, at any nesting depth. -/
theorem from_scrypto_value_network_ids (network_id : Nat) :
    ∀ sv : ScryptoValue, ∀ id ∈ addressNetworkIds
      (Value.from_scrypto_value sv network_id), id = network_id := by
  intro sv id hid
  match sv with
  | .Bool _ | .U8 _ | .U16 _ | .U32 _ | .U64 _ | .U128 _
  | .I8 _ | .I16 _ | .I32 _ | .I64 _ | .I128 _ | .String _ =>
    simp [Value.from_scrypto_value, addressNetworkIds] at hid
  | .Enum discriminator fields =>
    by_cases hfe : fields.isEmpty
    · simp [Value.from_scrypto_value, hfe, addressNetworkIds] at hid
    · simp only [Value.from_scrypto_value, hfe, if_neg, Bool.false_eq_true,
        if_false, addressNetworkIds] at hid
      exact listFrom_network_ids network_id fields id hid
  | .Map _ _ entries =>
    simp only [Value.from_scrypto_value, addressNetworkIds] at hid
    exact entriesFrom_network_ids network_id entries id hid
  | .Array _ elements =>
    simp only [Value.from_scrypto_value, addressNetworkIds] at hid
    exact listFrom_network_ids network_id elements id hid
  | .Tuple fields =>
    simp only [Value.from_scrypto_value, addressNetworkIds] at hid
    exact listFrom_network_ids network_id fields id hid
  | .Custom custom =>
    match custom with
    | .PackageAddress _ | .ResourceAddress _ | .ComponentAddress _ =>
      simp [Value.from_scrypto_value, addressNetworkIds] at hid
      exact hid
    | .Decimal _ | .PreciseDecimal _ | .Hash _ | .Bucket _ | .Proof _
    | .Expression _ | .Blob _ | .NonFungibleLocalId _ | .Own _
    | .EcdsaSecp256k1PublicKey _ | .EcdsaSecp256k1Signature _
    | .EddsaEd25519PublicKey _ | .EddsaEd25519Signature _ =>
      simp [Value.from_scrypto_value, addressNetworkIds] at hid
termination_by sv => sizeOf sv

/-- List version of `from_scrypto_value_network_ids`. -/
theorem listFrom_network_ids (network_id : Nat) :
    ∀ svs : List ScryptoValue, ∀ id ∈ listAddressNetworkIds
      (Value.listFromScryptoValue svs network_id), id = network_id := by
  intro svs id hid
  match svs with
  | [] => simp [Value.listFromScryptoValue, listAddressNetworkIds] at hid
  | sv :: rest =>
    simp only [Value.listFromScryptoValue, listAddressNetworkIds,
      List.mem_append] at hid
    cases hid with
    | inl h => exact from_scrypto_value_network_ids network_id sv id h
    | inr h => exact listFrom_network_ids network_id rest id h
termination_by svs => sizeOf svs

/-- Entries version of `from_scrypto_value_network_ids`. -/
theorem entriesFrom_network_ids (network_id : Nat) :
    ∀ es : List (ScryptoValue × ScryptoValue), ∀ id ∈ entriesAddressNetworkIds
      (Value.entriesFromScryptoValue es network_id), id = network_id := by
  intro es id hid
  match es with
  | [] => simp [Value.entriesFromScryptoValue, entriesAddressNetworkIds] at hid
  | (key, value) :: rest =>
    simp only [Value.entriesFromScryptoValue, entriesAddressNetworkIds,
      List.mem_append] at hid
    rcases hid with (h | h) | h
    · exact from_scrypto_value_network_ids network_id key id h
    · exact from_scrypto_value_network_ids network_id value id h
    · exact entriesFrom_network_ids network_id rest id h
termination_by es => sizeOf es

end

/-- C10: `from_scrypto_value` is total — `decode` of any wire value returns
`Ok` with no error branch — and every address-bearing variant it produces,
at any nesting depth, carries exactly the supplied network id. -/
theorem from_scrypto_value_total_and_network_stamped
    (sv : ScryptoValue) (network_id : Nat) :
    Value.decode sv network_id = .ok (Value.from_scrypto_value sv network_id) ∧
    ∀ id ∈ addressNetworkIds (Value.from_scrypto_value sv network_id),
      id = network_id :=
  ⟨rfl, from_scrypto_value_network_ids network_id sv⟩

/-- Witness for C10 at a wire value with addresses nested inside a tuple
and an array, decoded with network id 7. -/
theorem from_scrypto_value_total_and_network_stamped_witness :
    Value.decode (ScryptoValue.Tuple [.Custom (.ComponentAddress (.Account 3)),
        .Array (.Custom .PackageAddress) [.Custom (.PackageAddress ⟨9⟩)]]) 7 =
      .ok (Value.from_scrypto_value (ScryptoValue.Tuple
        [.Custom (.ComponentAddress (.Account 3)),
         .Array (.Custom .PackageAddress) [.Custom (.PackageAddress ⟨9⟩)]]) 7) ∧
    ∀ id ∈ addressNetworkIds (Value.from_scrypto_value (ScryptoValue.Tuple
        [.Custom (.ComponentAddress (.Account 3)),
         .Array (.Custom .PackageAddress) [.Custom (.PackageAddress ⟨9⟩)]]) 7),
      id = 7 :=
  from_scrypto_value_total_and_network_stamped _ 7

/-! ## C9: partition of encountered component addresses
(`analyze_manifest_with_preview_context.rs` lines 156-233)

The source folds a `BTreeSet<NetworkAwareComponentAddress>` into seven
`BTreeSet` fields, dispatching on the underlying `ComponentAddress`
variant. Sets are modelled as the lists of their iterated elements, and
`BTreeSet::insert` as appending the element. -/

/-- `EncounteredComponents` from `analyze_manifest_with_preview_context.rs`
lines 156-194: the seven per-entity-subtype sets. -/
structure EncounteredComponents where
  user_applications : List NetworkAwareComponentAddress
  accounts : List NetworkAwareComponentAddress
  identities : List NetworkAwareComponentAddress
  clocks : List NetworkAwareComponentAddress
  epoch_managers : List NetworkAwareComponentAddress
  validators : List NetworkAwareComponentAddress
  access_controller : List NetworkAwareComponentAddress
deriving DecidableEq, Repr

/-- The empty `EncounteredComponents` (the seven fresh `BTreeSet::new()`
sets of lines 198-204). -/
def EncounteredComponents.empty : EncounteredComponents :=
  ⟨[], [], [], [], [], [], []⟩

/-- One step of the loop body of lines 206-221: insert one address into
the field selected by its `ComponentAddress` variant. -/
def EncounteredComponents.insertAddress (acc : EncounteredComponents)
    (address : NetworkAwareComponentAddress) : EncounteredComponents :=
  match address.address with
  | .Normal _ => { acc with user_applications := acc.user_applications ++ [address] }
  | .Account _ => { acc with accounts := acc.accounts ++ [address] }
  | .EcdsaSecp256k1VirtualAccount _ => { acc with accounts := acc.accounts ++ [address] }
  | .EddsaEd25519VirtualAccount _ => { acc with accounts := acc.accounts ++ [address] }
  | .Identity _ => { acc with identities := acc.identities ++ [address] }
  | .EcdsaSecp256k1VirtualIdentity _ => { acc with identities := acc.identities ++ [address] }
  | .EddsaEd25519VirtualIdentity _ => { acc with identities := acc.identities ++ [address] }
  | .Clock _ => { acc with clocks := acc.clocks ++ [address] }
  | .EpochManager _ => { acc with epoch_managers := acc.epoch_managers ++ [address] }
  | .Validator _ => { acc with validators := acc.validators ++ [address] }
  | .AccessController _ => { acc with access_controller := acc.access_controller ++ [address] }

/-- `impl From<BTreeSet<NetworkAwareComponentAddress>> for
EncounteredComponents`, lines 196-233: fold the input set through the
variant dispatch. -/
def EncounteredComponents.ofAddressSet
    (value : List NetworkAwareComponentAddress) : EncounteredComponents :=
  value.foldl EncounteredComponents.insertAddress EncounteredComponents.empty

/-- The seven entity subtypes an encountered component is filed under. -/
inductive EntitySubtype where
  | UserApplication | AccountLike | IdentityLike | ClockEntity
  | EpochManagerEntity | ValidatorEntity | AccessControllerEntity
deriving DecidableEq, Repr

/-- The subtype dictated by a `ComponentAddress` variant: virtual
secp256k1/ed25519 accounts count as accounts, virtual identities as
identities. -/
def ComponentAddress.subtype : ComponentAddress → EntitySubtype
  | .Normal _ => .UserApplication
  | .Account _ => .AccountLike
  | .EcdsaSecp256k1VirtualAccount _ => .AccountLike
  | .EddsaEd25519VirtualAccount _ => .AccountLike
  | .Identity _ => .IdentityLike
  | .EcdsaSecp256k1VirtualIdentity _ => .IdentityLike
  | .EddsaEd25519VirtualIdentity _ => .IdentityLike
  | .Clock _ => .ClockEntity
  | .EpochManager _ => .EpochManagerEntity
  | .Validator _ => .ValidatorEntity
  | .AccessController _ => .AccessControllerEntity

/-- The field of an `EncounteredComponents` holding a given subtype. -/
def EncounteredComponents.field (ec : EncounteredComponents) :
    EntitySubtype → List NetworkAwareComponentAddress
  | .UserApplication => ec.user_applications
  | .AccountLike => ec.accounts
  | .IdentityLike => ec.identities
  | .ClockEntity => ec.clocks
  | .EpochManagerEntity => ec.epoch_managers
  | .ValidatorEntity => ec.validators
  | .AccessControllerEntity => ec.access_controller

/-- Inserting one address touches exactly the field of its subtype. -/
theorem insertAddress_field (acc : EncounteredComponents)
    (address : NetworkAwareComponentAddress) (b : EntitySubtype) :
    (acc.insertAddress address).field b =
      if address.address.subtype = b then acc.field b ++ [address]
      else acc.field b := by
  cases haddr : address.address <;> cases b <;>
    simp [EncounteredComponents.insertAddress, EncounteredComponents.field,
      ComponentAddress.subtype, haddr]

/-- Generalized fold characterization for `ofAddressSet`. -/
theorem foldl_insertAddress_field (value : List NetworkAwareComponentAddress)
    (acc : EncounteredComponents) (b : EntitySubtype) :
    (value.foldl EncounteredComponents.insertAddress acc).field b =
      acc.field b ++ value.filter (fun a => a.address.subtype == b) := by
  induction value generalizing acc with
  | nil => simp
  | cons a rest ih =>
    simp only [List.foldl_cons, ih, insertAddress_field, List.filter_cons]
    by_cases hsub : a.address.subtype = b
    · simp [hsub]
    · simp [hsub]

/-- C9: each encountered component address is filed under exactly the one
set dictated by its `ComponentAddress` variant (virtual accounts under
accounts, virtual identities under identities), and the union of the seven
sets is exactly the input set: an address is a member of the set for
subtype `b` iff it came from the input and its variant's subtype is `b`.
Mutual exclusivity and the union property both follow since `subtype` is a
total function into the seven subtypes. -/
theorem encountered_components_partition
    (value : List NetworkAwareComponentAddress)
    (a : NetworkAwareComponentAddress) (b : EntitySubtype) :
    a ∈ (EncounteredComponents.ofAddressSet value).field b ↔
      a ∈ value ∧ a.address.subtype = b := by
  simp only [EncounteredComponents.ofAddressSet, foldl_insertAddress_field]
  constructor
  · intro h
    rcases List.mem_append.mp h with h | h
    · cases b <;> simp [EncounteredComponents.empty, EncounteredComponents.field] at h
    · have := List.mem_filter.mp h
      exact ⟨this.1, by simpa using this.2⟩
  · intro ⟨hmem, hsub⟩
    exact List.mem_append.mpr (Or.inr (List.mem_filter.mpr ⟨hmem, by simpa using hsub⟩))

/-! ## C5: traversal abort semantics

The per-instruction dispatch `traverse_instruction` lives in the visitor
module, outside the provided sources; only its caller (the handler loop of
`analyze_manifest_with_preview_context.rs` lines 330-344, a
`collect::<Result<Vec<_>>>` over `iter_mut`, which short-circuits at the
first error) is in `src`. -/

/-- A parsed manifest instruction. Its internal structure is irrelevant to
the traversal framework, which only hands it to visitors; it is carried
opaquely. -/
structure Instruction where
  raw : Nat
deriving DecidableEq, Repr

/-- An instruction visitor: its accumulated private state together with its
visit callback. Rust's `&mut self` methods become explicit state passing;
heterogeneous visitor structs are modelled by choosing `S` at
instantiation. -/
structure InstructionVisitor (S : Type) where
  state : S
  visit : S → Instruction → Except Error S

/-- Modelled from the spec: `traverse_instruction` (visitor module, absent
from the provided sources) applies the visitors in the order supplied, once
each, to the given instruction; any visitor returning an error aborts the
dispatch immediately, surfacing that error, with the states mutated so far
kept. Returns the updated visitors and the first error, if any. -/
def traverse_instruction (instruction : Instruction) :
    List (InstructionVisitor S) → List (InstructionVisitor S) × Option Error
  | [] => ([], none)
  | v :: rest =>
    match v.visit v.state instruction with
    | .error e => (v :: rest, some e)
    | .ok state =>
      let updated := { v with state := state }
      match traverse_instruction instruction rest with
      | (rest', err) => (updated :: rest', err)

/-- The handler loop of `analyze_manifest_with_preview_context.rs` lines
330-344: call `traverse_instruction` on each instruction in manifest order,
short-circuiting at the first error (`collect::<Result<Vec<_>>>` over a
lazy `map`); the visitor structs persist across instructions. -/
def run_instructions (instructions : List Instruction)
    (visitors : List (InstructionVisitor S)) :
    List (InstructionVisitor S) × Option Error :=
  match instructions with
  | [] => (visitors, none)
  | i :: rest =>
    match traverse_instruction i visitors with
    | (visitors', none) => run_instructions rest visitors'
    | (visitors', some e) => (visitors', some e)

/-- C5: if the instructions before `i` all traverse cleanly and some
visitor errors on `i`, then the whole traversal returns that error
unchanged, no visitor processes any instruction after `i` (the outcome is
the same for every suffix `post`), and the visitor states accumulated on
the instructions before `i` (and on `i` up to the failing visitor) are
exactly what the traversal leaves behind. -/
theorem traversal_abort {S : Type} (pre post : List Instruction)
    (i : Instruction) (visitors vs₁ vs₂ : List (InstructionVisitor S)) (e : Error)
    (hpre : run_instructions pre visitors = (vs₁, none))
    (hfail : traverse_instruction i vs₁ = (vs₂, some e)) :
    run_instructions (pre ++ i :: post) visitors = (vs₂, some e) := by
  induction pre generalizing visitors with
  | nil =>
    simp only [run_instructions] at hpre
    injection hpre with h1 h2
    subst h1
    simp [run_instructions, hfail]
  | cons p rest ih =>
    simp only [List.cons_append, run_instructions]
    simp only [run_instructions] at hpre
    rcases htr : traverse_instruction p visitors with ⟨visitors', err⟩
    rw [htr] at hpre
    cases err with
    | none => exact ih visitors' hpre
    | some e0 => simp at hpre

/-- Witness for C5: two counting visitors over five instructions, the
second visitor erroring on the second instruction; the traversal stops
there with that error, the first visitor has counted two instructions and
the instructions after the second are never seen. -/
theorem traversal_abort_witness :
    run_instructions
      [⟨1⟩, ⟨2⟩, ⟨3⟩, ⟨4⟩, ⟨5⟩]
      [⟨0, fun s _ => .ok (s + 1)⟩,
       ⟨0, fun s instr => if instr.raw = 2 then .error .TransactionNotCommitted
           else .ok (s + 1)⟩] =
    ([⟨2, fun s _ => .ok (s + 1)⟩,
      ⟨1, fun s instr => if instr.raw = 2 then .error .TransactionNotCommitted
          else .ok (s + 1)⟩], some Error.TransactionNotCommitted) := by
  have hpre : run_instructions [⟨1⟩]
      [⟨0, fun s _ => .ok (s + 1)⟩,
       ⟨(0 : Nat), fun s instr => if instr.raw = 2 then .error .TransactionNotCommitted
           else .ok (s + 1)⟩] =
      ([⟨1, fun s _ => .ok (s + 1)⟩,
        ⟨1, fun s instr => if instr.raw = 2 then .error .TransactionNotCommitted
            else .ok (s + 1)⟩], none) := by
    simp [run_instructions, traverse_instruction]
  have hfail : traverse_instruction ⟨2⟩
      [⟨1, fun s _ => .ok (s + 1)⟩,
       ⟨(1 : Nat), fun s instr => if instr.raw = 2 then .error .TransactionNotCommitted
           else .ok (s + 1)⟩] =
      ([⟨2, fun s _ => .ok (s + 1)⟩,
        ⟨1, fun s instr => if instr.raw = 2 then .error .TransactionNotCommitted
            else .ok (s + 1)⟩], some Error.TransactionNotCommitted) := by
    simp [traverse_instruction]
  exact traversal_abort [⟨1⟩] [⟨3⟩, ⟨4⟩, ⟨5⟩] ⟨2⟩ _ _ _ _ hpre hfail

/-! ## C6: non-committed receipts fail the whole analysis request -/

/-- Reduction of a successful `Except` bind (do-notation helper). -/
theorem okBind {ε α β : Type} (a : α) (f : α → Except ε β) :
    (Except.ok a : Except ε α) >>= f = f a := rfl

/-- Reduction of a failing `Except` bind (do-notation helper). -/
theorem errorBind {ε α β : Type} (e : ε) (f : α → Except ε β) :
    (Except.error e : Except ε α) >>= f = Except.error e := rfl

/-- The commit payload of a successful receipt: the newly created entity
addresses the handler copies into the response (other commit contents are
unused by the handler and elided). -/
structure CommitResult where
  new_component_addresses : List ComponentAddress
  new_resource_addresses : List ResourceAddress
  new_package_addresses : List PackageAddress
deriving DecidableEq, Repr

/-- External `TransactionResult` (radix_engine): a receipt either committed
or did not. -/
inductive TransactionResult where
  | Commit (commit : CommitResult)
  | Reject (reason : String)
  | Abort (reason : String)
deriving DecidableEq, Repr

/-- External `TransactionReceipt`, reduced to the part the handler
inspects. -/
structure TransactionReceipt where
  result : TransactionResult
deriving DecidableEq, Repr

/-- The response assembled by the handler: the facts accumulated by the
visitors plus the created entities taken from the commit. -/
structure AnalyzeResponse (S : Type) where
  visitor_states : List S
  created_entities : CommitResult

/-- `AnalyzeManifestWithPreviewContextHandler::handle`
(`analyze_manifest_with_preview_context.rs` lines 278-383), with the
external pieces abstracted: the manifest has already been converted to
parsed instructions (the `ConvertManifestHandler` call), `decoded_receipt`
is the outcome of the external `scrypto_decode::<TransactionReceipt>` on
the request's receipt bytes, and the five concrete visitors are passed as
`visitors`. The receipt gate of lines 299-303 is embedded verbatim: a
receipt whose result is not `Commit` fails the whole request with
`TransactionNotCommitted`. -/
def analyze_manifest_handle (decoded_receipt : Except Error TransactionReceipt)
    (instructions : List Instruction) (visitors : List (InstructionVisitor S)) :
    Except Error (AnalyzeResponse S) := do
  let receipt ← decoded_receipt
  let commit ←
    match receipt.result with
    | .Commit commit => Except.ok commit
    | _ => Except.error Error.TransactionNotCommitted
  match run_instructions instructions visitors with
  | (visitors', none) =>
    .ok { visitor_states := visitors'.map (fun v => v.state),
          created_entities := commit }
  | (_, some e) => .error e

/-- C6 counterexample: the claim says a non-committed receipt yields
`TransactionNotCommitted` only for receipt-dependent categories while
manifest-only facts are still returned. In fact the handler fails the whole
request: with a rejected receipt and a one-instruction manifest with no
visitors (so every manifest-only fact is trivially computable), `handle`
returns `Err(TransactionNotCommitted)` and no response at all. -/
theorem non_committed_receipt_fails_whole_request :
    analyze_manifest_handle (S := Unit)
      (.ok { result := .Reject "failure" }) [⟨1⟩] [] =
      .error Error.TransactionNotCommitted ∧
    ∀ resp : AnalyzeResponse Unit,
      analyze_manifest_handle (.ok { result := .Reject "failure" }) [⟨1⟩] [] ≠
        .ok resp := by
  refine ⟨rfl, ?_⟩
  intro resp hcontra
  simp [analyze_manifest_handle, okBind, errorBind] at hcontra

/-- C6 (amended): for every analysis request whose receipt bytes decode to
a receipt that is not a successful commit, the handler fails the entire
request with the distinct error `TransactionNotCommitted`; no manifest-only
facts are returned. -/
theorem non_committed_receipt_yields_error {S : Type}
    (receipt : TransactionReceipt) (instructions : List Instruction)
    (visitors : List (InstructionVisitor S))
    (h : ∀ commit, receipt.result ≠ .Commit commit) :
    analyze_manifest_handle (.ok receipt) instructions visitors =
      .error Error.TransactionNotCommitted := by
  match hres : receipt.result with
  | .Commit commit => exact absurd hres (h commit)
  | .Reject reason => simp [analyze_manifest_handle, okBind, errorBind, hres]
  | .Abort reason => simp [analyze_manifest_handle, okBind, errorBind, hres]

/-- Witness for C6's amended theorem at a concrete aborted receipt. -/
theorem non_committed_receipt_yields_error_witness :
    (∀ commit, TransactionReceipt.result { result := .Abort "oops" } ≠
      .Commit commit) ∧
    analyze_manifest_handle (S := Unit) (.ok { result := .Abort "oops" })
      [⟨1⟩, ⟨2⟩] [] = .error Error.TransactionNotCommitted := by
  have h : ∀ commit, TransactionReceipt.result { result := .Abort "oops" } ≠
      .Commit commit := by intro commit hcontra; exact TransactionResult.noConfusion hcontra
  exact ⟨h, non_committed_receipt_yields_error _ _ _ h⟩

/-! ## The textual AST (external `ast::Value` / `ast::Type` of the
transaction manifest compiler) -/

/-- External `ast::Type`: the type tags of the textual manifest AST. It has
no `Some`/`None`/`Ok`/`Err` and no `Map` (those collapse to `Enum` and
`Array`). -/
inductive AstType where
  | Bool
  | I8 | I16 | I32 | I64 | I128
  | U8 | U16 | U32 | U64 | U128
  | String
  | Enum
  | Array | Tuple
  | Decimal | PreciseDecimal
  | PackageAddress | ComponentAddress | ResourceAddress
  | Hash
  | EcdsaSecp256k1PublicKey | EcdsaSecp256k1Signature
  | EddsaEd25519PublicKey | EddsaEd25519Signature
  | Bucket | Proof
  | NonFungibleLocalId | NonFungibleGlobalId
  | Blob | Expression | Bytes | Own
deriving DecidableEq, Repr

/-- External `ast::Value`: textual AST nodes. Domain-specific literals wrap
an inner node (a boxed `ast::Value`, usually required to be a string);
`Map` carries a flat list of alternating keys and values. -/
inductive AstValue where
  | Bool (value : Bool)
  | I8 (value : Int)
  | I16 (value : Int)
  | I32 (value : Int)
  | I64 (value : Int)
  | I128 (value : Int)
  | U8 (value : Nat)
  | U16 (value : Nat)
  | U32 (value : Nat)
  | U64 (value : Nat)
  | U128 (value : Nat)
  | String (value : String)
  | Enum (variant : Nat) (fields : List AstValue)
  | Some (value : AstValue)
  | None
  | Ok (value : AstValue)
  | Err (value : AstValue)
  | Map (key_value_kind : AstType) (value_value_kind : AstType)
      (entries : List AstValue)
  | Array (element_type : AstType) (elements : List AstValue)
  | Tuple (elements : List AstValue)
  | Decimal (value : AstValue)
  | PreciseDecimal (value : AstValue)
  | PackageAddress (value : AstValue)
  | ComponentAddress (value : AstValue)
  | ResourceAddress (value : AstValue)
  | Hash (value : AstValue)
  | Bucket (value : AstValue)
  | Proof (value : AstValue)
  | NonFungibleLocalId (value : AstValue)
  | NonFungibleGlobalId (value : AstValue)
  | Blob (value : AstValue)
  | Expression (value : AstValue)
  | Bytes (value : AstValue)
  | EcdsaSecp256k1PublicKey (value : AstValue)
  | EcdsaSecp256k1Signature (value : AstValue)
  | EddsaEd25519PublicKey (value : AstValue)
  | EddsaEd25519Signature (value : AstValue)
  | Own (value : AstValue)

/-- External `ast::Value::value_kind`: the `ast::Type` tag of a node.
`Some`/`None`/`Ok`/`Err` report `Enum`; `Map` reports `Array`. -/
def AstValue.value_kind : AstValue → AstType
  | .Bool _ => .Bool
  | .I8 _ => .I8
  | .I16 _ => .I16
  | .I32 _ => .I32
  | .I64 _ => .I64
  | .I128 _ => .I128
  | .U8 _ => .U8
  | .U16 _ => .U16
  | .U32 _ => .U32
  | .U64 _ => .U64
  | .U128 _ => .U128
  | .String _ => .String
  | .Enum _ _ => .Enum
  | .Some _ => .Enum
  | .None => .Enum
  | .Ok _ => .Enum
  | .Err _ => .Enum
  | .Map _ _ _ => .Array
  | .Array _ _ => .Array
  | .Tuple _ => .Tuple
  | .Decimal _ => .Decimal
  | .PreciseDecimal _ => .PreciseDecimal
  | .PackageAddress _ => .PackageAddress
  | .ComponentAddress _ => .ComponentAddress
  | .ResourceAddress _ => .ResourceAddress
  | .Hash _ => .Hash
  | .Bucket _ => .Bucket
  | .Proof _ => .Proof
  | .NonFungibleLocalId _ => .NonFungibleLocalId
  | .NonFungibleGlobalId _ => .NonFungibleGlobalId
  | .Blob _ => .Blob
  | .Expression _ => .Expression
  | .Bytes _ => .Bytes
  | .EcdsaSecp256k1PublicKey _ => .EcdsaSecp256k1PublicKey
  | .EcdsaSecp256k1Signature _ => .EcdsaSecp256k1Signature
  | .EddsaEd25519PublicKey _ => .EddsaEd25519PublicKey
  | .EddsaEd25519Signature _ => .EddsaEd25519Signature
  | .Own _ => .Own

/-- `impl From<ast::Type> for ValueKind` from `model/value.rs` lines
1278-1326. -/
def AstType.toValueKind : AstType → ValueKind
  | .Bool => .Bool
  | .I8 => .I8
  | .I16 => .I16
  | .I32 => .I32
  | .I64 => .I64
  | .I128 => .I128
  | .U8 => .U8
  | .U16 => .U16
  | .U32 => .U32
  | .U64 => .U64
  | .U128 => .U128
  | .String => .String
  | .Enum => .Enum
  | .Array => .Array
  | .Tuple => .Tuple
  | .Decimal => .Decimal
  | .PreciseDecimal => .PreciseDecimal
  | .PackageAddress => .PackageAddress
  | .ComponentAddress => .ComponentAddress
  | .ResourceAddress => .ResourceAddress
  | .Hash => .Hash
  | .EcdsaSecp256k1PublicKey => .EcdsaSecp256k1PublicKey
  | .EcdsaSecp256k1Signature => .EcdsaSecp256k1Signature
  | .EddsaEd25519PublicKey => .EddsaEd25519PublicKey
  | .EddsaEd25519Signature => .EddsaEd25519Signature
  | .Bucket => .Bucket
  | .Proof => .Proof
  | .NonFungibleLocalId => .NonFungibleLocalId
  | .NonFungibleGlobalId => .NonFungibleGlobalId
  | .Blob => .Blob
  | .Expression => .Expression
  | .Bytes => .Bytes
  | .Own => .Own

/-- The external `FromStr`/hex-decoding collaborators `from_ast_value`
invokes on string payloads. Their behavior is opaque to the toolkit; each
returns its parsed payload or an opaque parse failure. -/
structure Externals where
  parseDecimal : String → Except ParseErr Decimal
  parsePreciseDecimal : String → Except ParseErr PreciseDecimal
  parseHash : String → Except ParseErr Hash
  parseNonFungibleLocalId : String → Except ParseErr NonFungibleLocalId
  parseEcdsaSecp256k1PublicKey : String → Except ParseErr EcdsaSecp256k1PublicKey
  parseEcdsaSecp256k1Signature : String → Except ParseErr EcdsaSecp256k1Signature
  parseEddsaEd25519PublicKey : String → Except ParseErr EddsaEd25519PublicKey
  parseEddsaEd25519Signature : String → Except ParseErr EddsaEd25519Signature
  hexDecode : String → Except ParseErr (List Nat)
  blobFromBytes : List Nat → Except ParseErr ManifestBlobRef

/-- The external bech32 coder handed to `from_ast_value`: its network id
plus the external address decoding functions. The
`decode_to_network_aware_*` helpers attach `network_id` to the raw
addresses these produce. -/
structure Bech32Coder where
  network_id : Nat
  decodePackageAddress : String → Except ParseErr PackageAddress
  decodeComponentAddress : String → Except ParseErr ComponentAddress
  decodeResourceAddress : String → Except ParseErr ResourceAddress
  decodeNonFungibleGlobalId : String → Except ParseErr (ResourceAddress × NonFungibleLocalId)

/-- Lift an external parse failure into the toolkit error type (the
`map_err(Error::from)` calls of the source). -/
def liftParse {α : Type} : Except ParseErr α → Except Error α
  | .ok a => .ok a
  | .error e => .error (.ParseError e)

/-- `map_if_value_string` from `model/value.rs` lines 1539-1552: apply the
continuation if the inner node is a string, otherwise fail with
`UnexpectedAstContents` carrying the parsed kind, the expected kind set
`[String]` and the found kind. -/
def map_if_value_string (parsing : ValueKind) (value : AstValue)
    (map : String → Except Error Value) : Except Error Value :=
  match value with
  | .String value => map value
  | _ => .error (.UnexpectedAstContents parsing [.String] value.value_kind.toValueKind)

mutual

/-- `Value::from_ast_value` from `model/value.rs` lines 618-886: convert a
textual AST node to a model value, given the bech32 coder and the external
parsers. The `Own` arm of the source is `todo!()` (a crash); it is modelled
as a distinct error since nothing can rely on it. -/
def from_ast_value (ext : Externals) (coder : Bech32Coder) (value : AstValue) :
    Except Error Value :=
  let parsing := value.value_kind.toValueKind
  match value with
  | .Bool value => .ok (.Bool value)
  | .I8 value => .ok (.I8 value)
  | .I16 value => .ok (.I16 value)
  | .I32 value => .ok (.I32 value)
  | .I64 value => .ok (.I64 value)
  | .I128 value => .ok (.I128 value)
  | .U8 value => .ok (.U8 value)
  | .U16 value => .ok (.U16 value)
  | .U32 value => .ok (.U32 value)
  | .U64 value => .ok (.U64 value)
  | .U128 value => .ok (.U128 value)
  | .String value => .ok (.String value)
  | .Enum variant fields =>
    match fields with
    | [] => .ok (.Enum (.U8 variant) none)
    | f :: fs => do
      let converted ← listFromAstValue ext coder (f :: fs)
      .ok (.Enum (.U8 variant) (some converted))
  | .Some value => do
    let inner ← from_ast_value ext coder value
    .ok (.Some inner)
  | .None => .ok .None
  | .Ok value => do
    let inner ← from_ast_value ext coder value
    .ok (.Ok inner)
  | .Err value => do
    let inner ← from_ast_value ext coder value
    .ok (.Err inner)
  | .Map key_value_kind value_value_kind entries =>
    if entries.length % 2 ≠ 0 then .error .OddNumberOfElements
    else do
      let entries' ← entriesFromAstValue ext coder entries
      .ok (.Map key_value_kind.toValueKind value_value_kind.toValueKind entries')
  | .Array ast_type elements => do
    let elements' ← listFromAstValue ext coder elements
    .ok (.Array ast_type.toValueKind elements')
  | .Tuple elements => do
    let elements' ← listFromAstValue ext coder elements
    .ok (.Tuple elements')
  | .Decimal value =>
    map_if_value_string parsing value (fun string =>
      (liftParse (ext.parseDecimal string)).map (fun value => .Decimal value))
  | .PreciseDecimal value =>
    map_if_value_string parsing value (fun string =>
      (liftParse (ext.parsePreciseDecimal string)).map
        (fun value => .PreciseDecimal value))
  | .PackageAddress address =>
    map_if_value_string parsing address (fun address_string =>
      (liftParse (coder.decodePackageAddress address_string)).map
        (fun address => .PackageAddress ⟨coder.network_id, address⟩))
  | .ResourceAddress address =>
    map_if_value_string parsing address (fun address_string =>
      (liftParse (coder.decodeResourceAddress address_string)).map
        (fun address => .ResourceAddress ⟨coder.network_id, address⟩))
  | .ComponentAddress address =>
    map_if_value_string parsing address (fun address_string =>
      (liftParse (coder.decodeComponentAddress address_string)).map
        (fun address => .ComponentAddress ⟨coder.network_id, address⟩))
  | .Hash value =>
    map_if_value_string parsing value (fun string =>
      (liftParse (ext.parseHash string)).map (fun value => .Hash value))
  | .Bucket value =>
    match value with
    | .U32 identifier => .ok (.Bucket (.U32 identifier))
    | .String identifier => .ok (.Bucket (.String identifier))
    | _ => .error (.UnexpectedAstContents .Bucket [.U32, .String]
        value.value_kind.toValueKind)
  | .Proof value =>
    match value with
    | .U32 identifier => .ok (.Proof (.U32 identifier))
    | .String identifier => .ok (.Proof (.String identifier))
    | _ => .error (.UnexpectedAstContents .Proof [.U32, .String]
        value.value_kind.toValueKind)
  | .NonFungibleLocalId value =>
    match value with
    | .String string =>
      (liftParse (ext.parseNonFungibleLocalId string)).map
        (fun value => .NonFungibleLocalId value)
    | _ => .error (.UnexpectedAstContents .NonFungibleLocalId [.String]
        value.value_kind.toValueKind)
  | .NonFungibleGlobalId value =>
    match value with
    | .String string => do
      let native ← liftParse (coder.decodeNonFungibleGlobalId string)
      .ok (.NonFungibleGlobalId
        { resource_address := { network_id := coder.network_id, address := native.1 },
          non_fungible_local_id := native.2 })
    | _ => .error (.UnexpectedAstContents .NonFungibleGlobalId [.String]
        value.value_kind.toValueKind)
  | .Blob value =>
    map_if_value_string parsing value (fun blob_string => do
      let bytes ← liftParse (ext.hexDecode blob_string)
      let manifest_blob ← liftParse (ext.blobFromBytes bytes)
      .ok (.Blob manifest_blob))
  | .Expression value =>
    map_if_value_string parsing value (fun expression_string =>
      match expression_string with
      | "ENTIRE_WORKTOP" => .ok (.Expression .EntireWorktop)
      | "ENTIRE_AUTH_ZONE" => .ok (.Expression .EntireAuthZone)
      | string => .error (.InvalidExpressionString string
          ["ENTIRE_WORKTOP", "ENTIRE_AUTH_ZONE"]))
  | .EcdsaSecp256k1PublicKey value =>
    map_if_value_string parsing value (fun string =>
      (liftParse (ext.parseEcdsaSecp256k1PublicKey string)).map
        (fun public_key => .EcdsaSecp256k1PublicKey public_key))
  | .EcdsaSecp256k1Signature value =>
    map_if_value_string parsing value (fun string =>
      (liftParse (ext.parseEcdsaSecp256k1Signature string)).map
        (fun signature => .EcdsaSecp256k1Signature signature))
  | .EddsaEd25519PublicKey value =>
    map_if_value_string parsing value (fun string =>
      (liftParse (ext.parseEddsaEd25519PublicKey string)).map
        (fun public_key => .EddsaEd25519PublicKey public_key))
  | .EddsaEd25519Signature value =>
    map_if_value_string parsing value (fun string =>
      (liftParse (ext.parseEddsaEd25519Signature string)).map
        (fun signature => .EddsaEd25519Signature signature))
  | .Bytes value =>
    map_if_value_string parsing value (fun string =>
      (liftParse (ext.hexDecode string)).map (fun value => .Bytes value))
  | .Own _ => .error .OwnNotImplemented
termination_by sizeOf value

/-- Elementwise `from_ast_value`, short-circuiting at the first error (the
`collect::<Result<Vec<_>>>` idiom). -/
def listFromAstValue (ext : Externals) (coder : Bech32Coder) :
    List AstValue → Except Error (List Value)
  | [] => .ok []
  | v :: rest => do
    let v' ← from_ast_value ext coder v
    let rest' ← listFromAstValue ext coder rest
    .ok (v' :: rest')
termination_by vs => sizeOf vs

/-- The `chunks(2)` loop of the `Map` arm: convert alternating key/value
nodes pairwise. The odd-length guard of the caller makes the singleton arm
unreachable; it reports the same parity error for totality. -/
def entriesFromAstValue (ext : Externals) (coder : Bech32Coder) :
    List AstValue → Except Error (List (Value × Value))
  | [] => .ok []
  | [_] => .error .OddNumberOfElements
  | key :: value :: rest => do
    let key' ← from_ast_value ext coder key
    let value' ← from_ast_value ext coder value
    let rest' ← entriesFromAstValue ext coder rest
    .ok ((key', value') :: rest')
termination_by es => sizeOf es

end

/-! ## C8: string-payload AST nodes and shape errors -/

/-- Whether a textual AST node is a string node. -/
def isStringNode : AstValue → Bool
  | .String _ => true
  | _ => false

/-- Whether an error is the `UnexpectedAstContents` shape error. -/
def Error.isUnexpectedAstContents : Error → Bool
  | .UnexpectedAstContents _ _ _ => true
  | _ => false

/-- The AST tags whose payload must be a string node: the fixed and precise
decimals, the three address kinds, hash, blob, expression, bytes, the four
public keys and signatures, and the two non-fungible id kinds. -/
inductive StringPayloadKind where
  | Decimal | PreciseDecimal
  | PackageAddress | ComponentAddress | ResourceAddress
  | Hash | Blob | Expression | Bytes
  | EcdsaSecp256k1PublicKey | EcdsaSecp256k1Signature
  | EddsaEd25519PublicKey | EddsaEd25519Signature
  | NonFungibleLocalId | NonFungibleGlobalId
deriving DecidableEq, Repr

/-- Build the AST node of the given string-payload tag around an inner
node. -/
def StringPayloadKind.wrap : StringPayloadKind → AstValue → AstValue
  | .Decimal, inner => .Decimal inner
  | .PreciseDecimal, inner => .PreciseDecimal inner
  | .PackageAddress, inner => .PackageAddress inner
  | .ComponentAddress, inner => .ComponentAddress inner
  | .ResourceAddress, inner => .ResourceAddress inner
  | .Hash, inner => .Hash inner
  | .Blob, inner => .Blob inner
  | .Expression, inner => .Expression inner
  | .Bytes, inner => .Bytes inner
  | .EcdsaSecp256k1PublicKey, inner => .EcdsaSecp256k1PublicKey inner
  | .EcdsaSecp256k1Signature, inner => .EcdsaSecp256k1Signature inner
  | .EddsaEd25519PublicKey, inner => .EddsaEd25519PublicKey inner
  | .EddsaEd25519Signature, inner => .EddsaEd25519Signature inner
  | .NonFungibleLocalId, inner => .NonFungibleLocalId inner
  | .NonFungibleGlobalId, inner => .NonFungibleGlobalId inner

/-- The `ValueKind` being parsed when converting a node of the given tag
(what the source's `parsing` variable holds there). -/
def StringPayloadKind.parsingKind : StringPayloadKind → ValueKind
  | .Decimal => .Decimal
  | .PreciseDecimal => .PreciseDecimal
  | .PackageAddress => .PackageAddress
  | .ComponentAddress => .ComponentAddress
  | .ResourceAddress => .ResourceAddress
  | .Hash => .Hash
  | .Blob => .Blob
  | .Expression => .Expression
  | .Bytes => .Bytes
  | .EcdsaSecp256k1PublicKey => .EcdsaSecp256k1PublicKey
  | .EcdsaSecp256k1Signature => .EcdsaSecp256k1Signature
  | .EddsaEd25519PublicKey => .EddsaEd25519PublicKey
  | .EddsaEd25519Signature => .EddsaEd25519Signature
  | .NonFungibleLocalId => .NonFungibleLocalId
  | .NonFungibleGlobalId => .NonFungibleGlobalId

/-- `map_if_value_string` on a non-string node yields the shape error. -/
theorem map_if_value_string_not_string (parsing : ValueKind) (value : AstValue)
    (map : String → Except Error Value) (h : isStringNode value = false) :
    map_if_value_string parsing value map =
      .error (.UnexpectedAstContents parsing [.String] value.value_kind.toValueKind) := by
  cases value <;> simp_all [map_if_value_string, isStringNode]

/-- A mapped external parse can only yield `Ok` or a `ParseError`, never a
shape error. -/
theorem liftParse_map_no_shape {α : Type} (p : Except ParseErr α) (f : α → Value)
    (e : Error) (h : (liftParse p).map f = .error e) :
    e.isUnexpectedAstContents = false := by
  cases p with
  | ok a => simp [liftParse, Except.map] at h
  | error pe =>
    simp [liftParse, Except.map] at h
    subst h
    rfl

/-- C8: for every textual AST node whose tag requires a string payload, a
non-string inner node makes `from_ast_value` fail with
`UnexpectedAstContents` carrying the kind being parsed, the expected kind
set `[String]`, and the found kind; and with a string inner node the
conversion proceeds past the shape check (whatever error may still occur is
an external parse failure, never `UnexpectedAstContents`). -/
theorem from_ast_value_string_payload_shape (ext : Externals) (coder : Bech32Coder)
    (t : StringPayloadKind) (inner : AstValue) (hns : isStringNode inner = false) :
    from_ast_value ext coder (t.wrap inner) =
      .error (.UnexpectedAstContents t.parsingKind [.String]
        inner.value_kind.toValueKind) ∧
    ∀ (s : String) (e : Error),
      from_ast_value ext coder (t.wrap (.String s)) = .error e →
      e.isUnexpectedAstContents = false := by
  constructor
  · cases t <;>
      simp only [StringPayloadKind.wrap, StringPayloadKind.parsingKind, from_ast_value,
        AstValue.value_kind, AstType.toValueKind] <;>
      first
      | exact map_if_value_string_not_string _ _ _ hns
      | (cases inner <;> simp_all [from_ast_value, isStringNode, AstValue.value_kind,
          AstType.toValueKind])
  · intro s e h
    cases t with
    | Decimal =>
      simp only [StringPayloadKind.wrap, from_ast_value, map_if_value_string] at h
      exact liftParse_map_no_shape _ _ _ h
    | PreciseDecimal =>
      simp only [StringPayloadKind.wrap, from_ast_value, map_if_value_string] at h
      exact liftParse_map_no_shape _ _ _ h
    | PackageAddress =>
      simp only [StringPayloadKind.wrap, from_ast_value, map_if_value_string] at h
      exact liftParse_map_no_shape _ _ _ h
    | ComponentAddress =>
      simp only [StringPayloadKind.wrap, from_ast_value, map_if_value_string] at h
      exact liftParse_map_no_shape _ _ _ h
    | ResourceAddress =>
      simp only [StringPayloadKind.wrap, from_ast_value, map_if_value_string] at h
      exact liftParse_map_no_shape _ _ _ h
    | Hash =>
      simp only [StringPayloadKind.wrap, from_ast_value, map_if_value_string] at h
      exact liftParse_map_no_shape _ _ _ h
    | Bytes =>
      simp only [StringPayloadKind.wrap, from_ast_value, map_if_value_string] at h
      exact liftParse_map_no_shape _ _ _ h
    | EcdsaSecp256k1PublicKey =>
      simp only [StringPayloadKind.wrap, from_ast_value, map_if_value_string] at h
      exact liftParse_map_no_shape _ _ _ h
    | EcdsaSecp256k1Signature =>
      simp only [StringPayloadKind.wrap, from_ast_value, map_if_value_string] at h
      exact liftParse_map_no_shape _ _ _ h
    | EddsaEd25519PublicKey =>
      simp only [StringPayloadKind.wrap, from_ast_value, map_if_value_string] at h
      exact liftParse_map_no_shape _ _ _ h
    | EddsaEd25519Signature =>
      simp only [StringPayloadKind.wrap, from_ast_value, map_if_value_string] at h
      exact liftParse_map_no_shape _ _ _ h
    | NonFungibleLocalId =>
      simp only [StringPayloadKind.wrap, from_ast_value] at h
      exact liftParse_map_no_shape _ _ _ h
    | NonFungibleGlobalId =>
      simp only [StringPayloadKind.wrap, from_ast_value] at h
      cases hp : coder.decodeNonFungibleGlobalId s with
      | ok pair => simp [hp, liftParse, okBind, errorBind] at h
      | error pe =>
        simp [hp, liftParse, okBind, errorBind] at h
        subst h
        rfl
    | Blob =>
      simp only [StringPayloadKind.wrap, from_ast_value, map_if_value_string] at h
      cases hp : ext.hexDecode s with
      | ok bytes =>
        simp only [hp, liftParse, okBind, errorBind] at h
        cases hb : ext.blobFromBytes bytes with
        | ok blob => simp [hb, liftParse, okBind, errorBind] at h
        | error pe =>
          simp [hb, liftParse, okBind, errorBind] at h
          subst h
          rfl
      | error pe =>
        simp [hp, liftParse, okBind, errorBind] at h
        subst h
        rfl
    | Expression =>
      simp only [StringPayloadKind.wrap, from_ast_value, map_if_value_string] at h
      split at h
      · simp at h
      · simp at h
      · injection h with h
        subst h
        rfl

/-- Concrete external parsers for witnesses: every parse succeeds with a
fixed payload. -/
def trivialExternals : Externals where
  parseDecimal := fun _ => .ok ⟨0⟩
  parsePreciseDecimal := fun _ => .ok ⟨0⟩
  parseHash := fun _ => .ok ⟨0⟩
  parseNonFungibleLocalId := fun _ => .ok ⟨0⟩
  parseEcdsaSecp256k1PublicKey := fun _ => .ok ⟨0⟩
  parseEcdsaSecp256k1Signature := fun _ => .ok ⟨0⟩
  parseEddsaEd25519PublicKey := fun _ => .ok ⟨0⟩
  parseEddsaEd25519Signature := fun _ => .ok ⟨0⟩
  hexDecode := fun _ => .ok []
  blobFromBytes := fun _ => .ok ⟨0⟩

/-- Concrete bech32 coder for witnesses on network 1. -/
def trivialCoder : Bech32Coder where
  network_id := 1
  decodePackageAddress := fun _ => .ok ⟨0⟩
  decodeComponentAddress := fun _ => .ok (.Normal 0)
  decodeResourceAddress := fun _ => .ok ⟨0⟩
  decodeNonFungibleGlobalId := fun _ => .ok (⟨0⟩, ⟨0⟩)

/-- Witness for C8 at a `Decimal` literal whose payload is a `U8` node. -/
theorem from_ast_value_string_payload_shape_witness :
    isStringNode (AstValue.U8 7) = false ∧
    from_ast_value trivialExternals trivialCoder (AstValue.Decimal (AstValue.U8 7)) =
      .error (.UnexpectedAstContents .Decimal [.String] .U8) :=
  ⟨rfl, (from_ast_value_string_payload_shape trivialExternals trivialCoder
    .Decimal (AstValue.U8 7) rfl).1⟩

/-! ## C2: the classifier produces exactly one of seven transaction types

The core `TransactionType` and the `analyze` function live in
`radix-engine-toolkit-core` (absent from the provided sources); their seven
variants are fixed by the exhaustive match of
`SerializableTransactionType::new` (`functions/execution.rs` lines
120-395), and the classification algorithm is modelled from the spec.
Payload contents are irrelevant to this claim and carried opaquely. -/

/-- Core `TransactionType` (toolkit-core): the seven variants matched
exhaustively by `SerializableTransactionType::new`. Payloads opaque. -/
inductive TransactionType where
  | SimpleTransfer (data : Nat)
  | Transfer (data : Nat)
  | AccountDepositSettings (data : Nat)
  | StakeTransaction (data : Nat)
  | UnstakeTransaction (data : Nat)
  | ClaimStakeTransaction (data : Nat)
  | GeneralTransaction (data : Nat)
deriving DecidableEq, Repr

/-- `SerializableTransactionType` from `functions/execution.rs` lines
107-118: the closed seven-variant union of the classifier output. Payloads
opaque. -/
inductive SerializableTransactionType where
  | SimpleTransfer (data : Nat)
  | Transfer (data : Nat)
  | AccountDepositSettings (data : Nat)
  | Stake (data : Nat)
  | Unstake (data : Nat)
  | ClaimStake (data : Nat)
  | GeneralTransaction (data : Nat)
deriving DecidableEq, Repr

/-- `SerializableTransactionType::new` from `functions/execution.rs` lines
120-395: the exhaustive variant-to-variant mapping (the per-payload
conversions are elided as opaque). -/
def SerializableTransactionType.new :
    TransactionType → SerializableTransactionType
  | .SimpleTransfer data => .SimpleTransfer data
  | .Transfer data => .Transfer data
  | .GeneralTransaction data => .GeneralTransaction data
  | .AccountDepositSettings data => .AccountDepositSettings data
  | .StakeTransaction data => .Stake data
  | .UnstakeTransaction data => .Unstake data
  | .ClaimStakeTransaction data => .ClaimStake data

/-- The pattern-match outcomes the visitors extract from one
manifest+receipt pair: for each specific category, the payload if its
pattern matched; the fallback payload always exists. -/
structure ManifestFacts where
  simple_transfer : Option Nat
  transfer : Option Nat
  stake : Option Nat
  unstake : Option Nat
  claim_stake : Option Nat
  account_deposit_settings : Option Nat
  general : Nat
deriving DecidableEq, Repr

/-- Modelled from the spec: the classifier of section 4.3 evaluates the
pattern checks in priority order with a first-match policy — SimpleTransfer,
Transfer, Stake, Unstake, ClaimStake, AccountDepositSettings — and falls
back to GeneralTransaction, which always succeeds. -/
def classifyTransaction (facts : ManifestFacts) : TransactionType :=
  match facts.simple_transfer with
  | some data => .SimpleTransfer data
  | none =>
    match facts.transfer with
    | some data => .Transfer data
    | none =>
      match facts.stake with
      | some data => .StakeTransaction data
      | none =>
        match facts.unstake with
        | some data => .UnstakeTransaction data
        | none =>
          match facts.claim_stake with
          | some data => .ClaimStakeTransaction data
          | none =>
            match facts.account_deposit_settings with
            | some data => .AccountDepositSettings data
            | none => .GeneralTransaction facts.general

/-- Modelled from the spec: `analyze` (toolkit-core, absent from the
provided sources) produces exactly one `TransactionType` per accepted
manifest+receipt pair; `ExecutionAnalyze::handle` (lines 61-101) then maps
each produced type through `SerializableTransactionType::new` into the
response's `transaction_types` vector. -/
def execution_analyze_transaction_types (facts : ManifestFacts) :
    List SerializableTransactionType :=
  [classifyTransaction facts].map SerializableTransactionType.new

/-- C2: for every accepted manifest+receipt pair, the classification output
contains exactly one transaction type — never zero, never more than one —
and it is drawn from the closed union of the seven variants. -/
theorem classifier_exactly_one_of_seven (facts : ManifestFacts) :
    (execution_analyze_transaction_types facts).length = 1 ∧
    (∃ t, execution_analyze_transaction_types facts = [t]) ∧
    ∀ t ∈ execution_analyze_transaction_types facts,
      (∃ d, t = .SimpleTransfer d) ∨ (∃ d, t = .Transfer d) ∨
      (∃ d, t = .AccountDepositSettings d) ∨ (∃ d, t = .Stake d) ∨
      (∃ d, t = .Unstake d) ∨ (∃ d, t = .ClaimStake d) ∨
      (∃ d, t = .GeneralTransaction d) := by
  refine ⟨rfl, ⟨_, rfl⟩, ?_⟩
  intro t ht
  simp only [execution_analyze_transaction_types, List.map_cons, List.map_nil,
    List.mem_singleton] at ht
  subst ht
  cases h : classifyTransaction facts <;>
    simp [SerializableTransactionType.new]

end RET
